import Mathlib

/-!
Shallow embedding of the outfit decision engine and ingestion pipeline of the
ai-fashion-consultant repository:
  src/agents/planner_agent.py   (generate_outfit, _generate_fallback_outfit,
                                 _parse_outfit_response, _resolve_item_images,
                                 _validate_outfit, _get_outfit_items)
  src/tools/color_matcher.py    (ColorMatcher.validate_combination,
                                 analyze_outfit_colors)
  src/tools/gender_style_rules.py (GenderStyleRules.validate_outfit,
                                 get_styling_tips)
  src/tools/image_tagger.py     (ImageTagger.tag_garment, _fallback_tags)
  src/agents/perception_agent.py (PerceptionAgent.validate_garment_data)
  src/config/settings.py        (COLOR_COMPLEMENTARY, MAX_RETRIES)

External effects (the remote generation call, the vision tagging call, the
weather lookup, json.loads and the random generator) are modelled as explicit
parameters; machine floats of the source are modelled as exact rationals.
-/

/-- Python substring test: needle in hay (the operator "in" on str). -/
def strContainsSub (hay needle : String) : Bool :=
  hay.toList.tails.any (fun t => needle.toList.isPrefixOf t)

/-- Python str.lower(): every character lower-cased (kernel-computable form). -/
def pyLower (s : String) : String :=
  String.mk (s.toList.map Char.toLower)

/-- Python str.strip(): whitespace removed from both ends. -/
def pyStrip (s : String) : String :=
  String.mk (((s.toList.dropWhile Char.isWhitespace).reverse.dropWhile
    Char.isWhitespace).reverse)

/-- Helper for pySplit: accumulate the current token (reversed) while scanning. -/
def wsTokensAux : List Char → List Char → List String
  | [], cur => if cur = [] then [] else [String.mk cur.reverse]
  | c :: rest, cur =>
    if c.isWhitespace then
      if cur = [] then wsTokensAux rest []
      else String.mk cur.reverse :: wsTokensAux rest []
    else wsTokensAux rest (c :: cur)

/-- Python str.split() with no arguments: split on whitespace runs, dropping empties. -/
def pySplit (s : String) : List String :=
  wsTokensAux s.toList []

/-- Python str.title(): first alphabetic character of each alphabetic run upper-cased,
    the rest of the run lower-cased. -/
def pyTitle (s : String) : String :=
  String.mk (s.toList.foldl
    (fun (acc : List Char × Bool) c =>
      if c.isAlpha then
        (acc.1 ++ [if acc.2 then c.toLower else c.toUpper], true)
      else
        (acc.1 ++ [c], false))
    ([], false)).1

/-- A wardrobe record as handed to the engine by the inventory store
    (src/tools/wardrobe_db.py rows; the engine reads id, garment_type, color). -/
structure Item where
  id : Nat
  garment_type : String
  color : String
  formality : String := "casual"
  material : String := ""
  gender_category : String := "unisex"
  deriving DecidableEq, Repr

/-- Result shape of ColorMatcher.validate_combination. -/
structure CMRes where
  valid : Bool
  score : ℚ
  reasoning : String
  deriving DecidableEq, Repr

/-- COLOR_COMPLEMENTARY from src/config/settings.py lines 66-78. -/
def COLOR_COMPLEMENTARY : List (String × List String) :=
  [("blue", ["orange", "yellow", "white", "beige"]),
   ("red", ["green", "white", "black", "navy"]),
   ("green", ["red", "brown", "beige", "white"]),
   ("yellow", ["purple", "blue", "gray", "white"]),
   ("purple", ["yellow", "green", "white", "gold"]),
   ("orange", ["blue", "teal", "white", "brown"]),
   ("pink", ["gray", "white", "navy", "green"]),
   ("brown", ["cream", "beige", "white", "blue"]),
   ("black", ["white", "red", "gold", "pink"]),
   ("white", ["any"]),
   ("gray", ["any"])]

/-- The fixed neutral set of ColorMatcher.validate_combination (line 36). -/
def neutralColors : List String :=
  ["white", "black", "gray", "grey", "beige", "cream", "navy", "brown"]

/-- Python dict lookup primary in self.complementary. -/
def lookupComplementary (c : String) : Option (List String) :=
  (COLOR_COMPLEMENTARY.find? (fun p => p.1 == c)).map (fun p => p.2)

/-- ColorMatcher.validate_combination (src/tools/color_matcher.py lines 15-82). -/
def validate_combination (colors : List String) : CMRes :=
  if colors.length < 2 then
    { valid := true, score := 1, reasoning := "Single or no colors - automatically valid" }
  else
    let cs := colors.map pyLower
    if cs.any (fun c => neutralColors.contains c) then
      { valid := true, score := 95/100,
        reasoning := "Contains neutral colors which pair well with most colors" }
    else
      let primary := cs.headD ""
      let secondary := cs.tail
      match lookupComplementary primary with
      | some complements =>
        if complements.contains "any" then
          { valid := true, score := 1,
            reasoning := pyTitle primary ++ " is a neutral that works with any color" }
        else
          let matching :=
            (secondary.filter (fun c => complements.any (fun comp => strContainsSub c comp))).length
          let score : ℚ := if secondary.length = 0 then 1 else (matching : ℚ) / (secondary.length : ℚ)
          if (1 : ℚ)/2 ≤ score then
            { valid := true, score := score,
              reasoning := pyTitle primary ++ " complements well with " ++
                String.intercalate ", " secondary }
          else
            { valid := false, score := score,
              reasoning := "Warning: " ++ pyTitle primary ++ " may clash with " ++
                String.intercalate ", " secondary ++ ". Consider adding neutrals." }
      | none =>
        { valid := true, score := 7/10,
          reasoning := "Color combination not in database - proceed with caution" }

/-- Claimed variant of validate_combination, following the claim wording of C6:
    a secondary color counts as matching when it appears as a substring of a listed
    complement (the source tests the opposite containment, complement in color). -/
def validateCombinationClaimed (colors : List String) : CMRes :=
  if colors.length < 2 then
    { valid := true, score := 1, reasoning := "Single or no colors - automatically valid" }
  else
    let cs := colors.map pyLower
    if cs.any (fun c => neutralColors.contains c) then
      { valid := true, score := 95/100,
        reasoning := "Contains neutral colors which pair well with most colors" }
    else
      let primary := cs.headD ""
      let secondary := cs.tail
      match lookupComplementary primary with
      | some complements =>
        if complements.contains "any" then
          { valid := true, score := 1,
            reasoning := pyTitle primary ++ " is a neutral that works with any color" }
        else
          let matching :=
            (secondary.filter (fun c => complements.any (fun comp => strContainsSub comp c))).length
          let score : ℚ := if secondary.length = 0 then 1 else (matching : ℚ) / (secondary.length : ℚ)
          if (1 : ℚ)/2 ≤ score then
            { valid := true, score := score,
              reasoning := pyTitle primary ++ " complements well with " ++
                String.intercalate ", " secondary }
          else
            { valid := false, score := score,
              reasoning := "Warning: " ++ pyTitle primary ++ " may clash with " ++
                String.intercalate ", " secondary ++ ". Consider adding neutrals." }
      | none =>
        { valid := true, score := 7/10,
          reasoning := "Color combination not in database - proceed with caution" }

/-- Result shape of ColorMatcher.analyze_outfit_colors. -/
structure ColorAnalysis where
  colors_used : List String
  validation : CMRes
  color_count : Nat
  has_neutral : Bool
  suggestion : Option String := none
  deriving DecidableEq, Repr

/-- ColorMatcher.analyze_outfit_colors (src/tools/color_matcher.py lines 97-122). -/
def analyze_outfit_colors (outfit_items : List Item) : ColorAnalysis :=
  let colors := (outfit_items.map (fun i => i.color)).filter (fun c => c ≠ "")
  let validation := validate_combination colors
  { colors_used := colors
    validation := validation
    color_count := colors.length
    has_neutral := colors.any (fun c => ["white", "black", "gray", "beige"].contains (pyLower c))
    suggestion :=
      if validation.valid then none
      else some "Consider adding a neutral piece (white, black, or gray) to balance the outfit" }

/-- An outfit dictionary as consumed by GenderStyleRules.validate_outfit: category
    keys mapped to a truthy value (an item) or absent. -/
structure GOutfit where
  top : Option Item := none
  bottom : Option Item := none
  shoes : Option Item := none
  dress : Option Item := none
  outerwear : Option Item := none
  accessories : List Item := []
  deriving DecidableEq, Repr

/-- Result shape of GenderStyleRules.validate_outfit (planner _validate_outfit
    returns the same shape without the missing key). -/
structure VRes where
  valid : Bool
  score : ℚ
  issues : List String
  missing : Option (List String) := none
  deriving DecidableEq, Repr

/-- Gender normalization of GenderStyleRules: lower-case, unknown maps to unisex. -/
def normGender (gender : String) : String :=
  let g := pyLower gender
  if g = "male" ∨ g = "female" ∨ g = "unisex" then g else "unisex"

/-- required_categories of the rules table (src/tools/gender_style_rules.py lines 12-46). -/
def gsRequired : String → List String
  | "male" => ["top", "bottom", "shoes"]
  | "female" => ["top_or_dress", "bottom_optional", "shoes"]
  | _ => ["top", "bottom", "shoes"]

/-- accessory_limits of the rules table. -/
def accessoryLimit : String → Nat
  | "male" => 3
  | "female" => 5
  | _ => 4

/-- Truthiness of outfit.get(category) on a GOutfit. -/
def gGet (o : GOutfit) : String → Bool
  | "top" => o.top.isSome
  | "bottom" => o.bottom.isSome
  | "shoes" => o.shoes.isSome
  | "dress" => o.dress.isSome
  | "outerwear" => o.outerwear.isSome
  | _ => false

/-- GenderStyleRules.validate_outfit (src/tools/gender_style_rules.py lines 89-144). -/
def gsValidateOutfit (outfit : GOutfit) (gender : String) : VRes :=
  let g := normGender gender
  let required := gsRequired g
  let missing := required.filterMap (fun category =>
    if category = "top_or_dress" then
      if ¬ (gGet outfit "top" ∨ gGet outfit "dress") then some "top or dress" else none
    else if category = "bottom_optional" then
      if ¬ gGet outfit "dress" ∧ ¬ gGet outfit "bottom" then
        some "bottom (unless wearing dress)"
      else none
    else
      if ¬ gGet outfit category then some category else none)
  if accessoryLimit g < outfit.accessories.length then
    { valid := false, score := 6/10,
      issues := ["Too many accessories (" ++ toString outfit.accessories.length ++ " > " ++
        toString (accessoryLimit g) ++ ")"],
      missing := some missing }
  else if missing ≠ [] then
    { valid := false, score := 3/10,
      issues := ["Missing required items: " ++ String.intercalate ", " missing],
      missing := some missing }
  else
    { valid := true, score := 1, issues := [], missing := some [] }

/-- Occasion to tips-table key map of GenderStyleRules.get_styling_tips. -/
def occKeyOf (occasion : String) : String :=
  if occasion = "casual" then "casual"
  else if occasion = "work" then "work"
  else if occasion = "business" then "work"
  else if occasion = "formal" then "formal"
  else if occasion = "wedding" then "formal"
  else if occasion = "party" then "formal"
  else "casual"

/-- GenderStyleRules.get_styling_tips (src/tools/gender_style_rules.py lines 146-199). -/
def get_styling_tips (gender occasion : String) : List String :=
  let g0 := pyLower gender
  let g := if g0 = "male" ∨ g0 = "female" then g0 else "male"
  let k := occKeyOf occasion
  if g = "male" then
    if k = "casual" then
      ["Fit is key - even casual wear should fit well",
       "Dark jeans are more versatile than light wash",
       "White sneakers go with almost everything"]
    else if k = "work" then
      ["Match your belt to your shoes",
       "Keep shirts tucked for a polished look",
       "Avoid overly bold patterns in professional settings"]
    else
      ["Suit should be tailored to your body",
       "Tie should reach your belt buckle",
       "Dress shoes should be polished"]
  else
    if k = "casual" then
      ["Layer pieces for versatility",
       "Comfortable shoes are essential",
       "Statement accessory can elevate simple outfit"]
    else if k = "work" then
      ["Classic pieces create a professional wardrobe",
       "Neutral colors are easiest to mix and match",
       "Keep jewelry minimal and elegant"]
    else
      ["Dress should fit perfectly - consider tailoring",
       "Coordinate heel height with dress length",
       "Less is more with evening accessories"]

/-- One entry of the worn_today list: an outfit dict whose slot values are item
    dicts or non-dict values (modelled as none). -/
structure Worn where
  top : Option Item := none
  bottom : Option Item := none
  shoes : Option Item := none
  dress : Option Item := none
  outerwear : Option Item := none
  accessories : List Item := []
  deriving DecidableEq, Repr

/-- Inner-loop body of the worn_ids collection (lines 78-81): a slot value is
    used only when it is an item dict whose id is truthy, that is non-zero. -/
def wornIdStep (acc : List Nat) (it : Option Item) : List Nat :=
  match it with
  | some i => if i.id ≠ 0 then acc ++ [i.id] else acc
  | none => acc

/-- One worn outfit contributes the ids of its top, bottom, shoes and dress parts. -/
def wornOutfitIds (acc : List Nat) (worn : Worn) : List Nat :=
  [worn.top, worn.bottom, worn.shoes, worn.dress].foldl wornIdStep acc

/-- The worn_ids set built by generate_outfit (src/agents/planner_agent.py lines
    76-81): only the parts top, bottom, shoes, dress are inspected, and an id is
    added only when item.get(id) is truthy, that is non-zero. -/
def computeWornIds (worn_today : List Worn) : List Nat :=
  worn_today.foldl wornOutfitIds []

/-- valid_items of generate_outfit (line 83). -/
def validItems (wardrobe : List Item) (worn_today : List Worn) : List Item :=
  wardrobe.filter (fun i => ¬ (computeWornIds worn_today).contains i.id)

/-- Claimed worn-id collection of C2: the id of every item referenced in any
    category of any worn-today outfit. -/
def claimedWornIds (worn_today : List Worn) : List Nat :=
  worn_today.foldl
    (fun acc worn =>
      acc ++ ([worn.top, worn.bottom, worn.shoes, worn.dress, worn.outerwear].filterMap
        (fun it => it.map Item.id)) ++ worn.accessories.map Item.id)
    []

/-- Claimed eligible subset of C2. -/
def claimedEligible (wardrobe : List Item) (worn_today : List Worn) : List Item :=
  wardrobe.filter (fun i => ¬ (claimedWornIds worn_today).contains i.id)

/-- Spec-level statement of "item with non-zero id n is referenced in a top,
    bottom, shoes or dress slot of some worn-today outfit". -/
def WornRef (worn_today : List Worn) (n : Nat) : Prop :=
  n ≠ 0 ∧ ∃ w, w ∈ worn_today ∧ ∃ i,
    (w.top = some i ∨ w.bottom = some i ∨ w.shoes = some i ∨ w.dress = some i) ∧ i.id = n

/-- random.choice: uniform pick from a list, an IndexError on the empty list.
    The index supplied by the random source is reduced modulo the length. -/
def pyChoiceE (idx : Nat) (l : List α) : Except String α :=
  match l.get? (idx % l.length) with
  | some a => Except.ok a
  | none => Except.error "IndexError: Cannot choose from an empty sequence"

/-- Anchor selection block of generate_outfit (lines 74-93): pick from the
    eligible subset, or from the full wardrobe with allow_repeats when the
    eligible subset is empty. -/
def selectAnchorE (idx : Nat) (wardrobe : List Item) (worn_today : List Worn) :
    Except String (Option Item × Bool) :=
  if wardrobe.isEmpty then Except.ok (none, false)
  else
    let valid := validItems wardrobe worn_today
    if ¬ valid.isEmpty then do
      let a ← pyChoiceE idx valid
      pure (some a, false)
    else do
      let a ← pyChoiceE idx wardrobe
      pure (some a, true)

/-- Greedy decimal digits at the head of the character list, as int() of the
    regex capture group. -/
def takeDigitsNat (l : List Char) : Nat :=
  (l.takeWhile Char.isDigit).foldl (fun n c => n * 10 + (c.toNat - 48)) 0

/-- Suffix of the resolver regex after the literal item or id: whitespace,
    an optional hash sign, whitespace, then at least one digit. -/
def matchIdSuffix (l : List Char) : Option Nat :=
  let l1 := l.dropWhile Char.isWhitespace
  let l2 :=
    match l1 with
    | '#' :: r => r.dropWhile Char.isWhitespace
    | _ => l1
  match l2 with
  | [] => none
  | c :: _ => if c.isDigit then some (takeDigitsNat l2) else none

/-- re.search of the resolver pattern (item or id, optional hash, digits) on the
    lower-cased description: leftmost match wins. -/
def findIdNum : List Char → Option Nat
  | [] => none
  | c :: rest =>
    let here :=
      if ['i', 't', 'e', 'm'].isPrefixOf (c :: rest) then matchIdSuffix ((c :: rest).drop 4)
      else if ['i', 'd'].isPrefixOf (c :: rest) then matchIdSuffix ((c :: rest).drop 2)
      else none
    match here with
    | some n => some n
    | none => findIdNum rest

/-- c_tokens of the resolver: the color field lower-cased and split on whitespace. -/
def colorTokens (it : Item) : List String :=
  pySplit (pyLower it.color)

/-- The color+type heuristic of _resolve_item_images (lines 346-356). -/
def heurMatch (descLower : String) (it : Item) : Bool :=
  let t := pyLower it.garment_type
  let c_tokens := colorTokens it
  let type_match := strContainsSub descLower t
  let color_match :=
    if c_tokens.isEmpty then true
    else c_tokens.any (fun tok => strContainsSub descLower tok)
  type_match && color_match

/-- Per-category resolution of _resolve_item_images: exact-id match first, then
    the color+type heuristic, else none. -/
def resolveOne (description : String) (wardrobe : List Item) : Option Item :=
  let descLower := pyLower description
  let byId : Option Item :=
    match findIdNum descLower.toList with
    | some target => wardrobe.find? (fun i => i.id == target)
    | none => none
  match byId with
  | some it => some it
  | none => wardrobe.find? (heurMatch descLower)

/-- A resolved outfit slot: a wardrobe record or the unresolved description text. -/
inductive Resolved
  | item (it : Item)
  | txt (s : String)
  deriving DecidableEq, Repr

/-- PlannerAgent._resolve_item_images (lines 326-360): falsy descriptions are
    skipped, unresolved descriptions pass through as text. -/
def resolveItemImages (outfit : List (String × String)) (wardrobe : List Item) :
    List (String × Resolved) :=
  outfit.filterMap (fun p =>
    if p.2 = "" then none
    else some (p.1,
      match resolveOne p.2 wardrobe with
      | some it => Resolved.item it
      | none => Resolved.txt p.2))

/-- The loosely typed object produced by _parse_outfit_response and consumed via
    dict.get by generate_outfit. -/
structure OutfitData where
  outfit : List (String × String) := []
  reasoning : Option String := none
  confidence_score : Option ℚ := none
  alternatives : List String := []
  deriving DecidableEq, Repr

def lbraceChar : Char := Char.ofNat 123

def rbraceChar : Char := Char.ofNat 125

/-- str.find of a character: index of the first occurrence. -/
def findFirstIdx (chars : List Char) (c : Char) : Option Nat :=
  chars.findIdx? (fun x => x == c)

/-- str.rfind of a character: index of the last occurrence. -/
def findLastIdx (chars : List Char) (c : Char) : Option Nat :=
  match chars.reverse.findIdx? (fun x => x == c) with
  | some j => some (chars.length - 1 - j)
  | none => none

/-- PlannerAgent._parse_outfit_response (lines 279-294); json.loads is the
    external parameter loads, returning none on a JSONDecodeError. -/
def parseOutfitResponse (loads : String → Option OutfitData) (response_text : String) :
    OutfitData :=
  let text := pyStrip response_text
  let chars := text.toList
  match findFirstIdx chars lbraceChar, findLastIdx chars rbraceChar with
  | some s, some e =>
    let sliced := String.mk ((chars.drop s).take (e + 1 - s))
    match loads sliced with
    | some d => d
    | none => { outfit := [], reasoning := some response_text, confidence_score := some 0 }
  | _, _ => { outfit := [], reasoning := some response_text, confidence_score := some 0 }

/-- Quota classification of the generation retry loop (line 142): the lower-cased
    error message contains 429 or quota. -/
def isQuotaErr (e : String) : Bool :=
  let s := pyLower e
  strContainsSub s "429" || strContainsSub s "quota"

/-- The for attempt in range(2) retry loop of generate_outfit (lines 136-147),
    tracking how many remote calls were made. Every branch of the source body
    breaks out of the loop: success breaks, a quota error breaks, any other
    error is logged and breaks. -/
def genLoopAux (gen : Nat → Except String String) : Nat → Nat → Option String × Nat
  | calls, 0 => (none, calls)
  | calls, Nat.succ _rem =>
    match gen calls with
    | Except.ok t => (some t, calls + 1)
    | Except.error e =>
      if isQuotaErr e then (none, calls + 1)
      else (none, calls + 1)

/-- The bounded-retry generation client: at most 2 attempts. -/
def genClientLoop (gen : Nat → Except String String) : Option String × Nat :=
  genLoopAux gen 0 2

/-- garment_type membership lists of _generate_fallback_outfit (lines 210-214). -/
def topVocab : List String := ["top", "shirt", "t-shirt", "blouse", "sweater"]

def bottomVocab : List String := ["bottom", "pants", "jeans", "skirt", "shorts"]

def shoesVocab : List String := ["shoes", "sneakers", "boots", "heels"]

def dressVocab : List String := ["dress", "gown", "jumpsuit"]

def outerwearVocab : List String := ["outerwear", "jacket", "coat", "blazer"]

/-- The anchor-placement shoe list of line 228, which omits heels. -/
def anchorShoesVocab : List String := ["shoes", "sneakers", "boots"]

def topsOf (wardrobe : List Item) : List Item :=
  wardrobe.filter (fun i => topVocab.contains i.garment_type)

def bottomsOf (wardrobe : List Item) : List Item :=
  wardrobe.filter (fun i => bottomVocab.contains i.garment_type)

def shoesOf (wardrobe : List Item) : List Item :=
  wardrobe.filter (fun i => shoesVocab.contains i.garment_type)

def dressesOf (wardrobe : List Item) : List Item :=
  wardrobe.filter (fun i => dressVocab.contains i.garment_type)

def outerwearOf (wardrobe : List Item) : List Item :=
  wardrobe.filter (fun i => outerwearVocab.contains i.garment_type)

/-- The fallback outfit under construction: slot values are item dicts; an
    absent key and a key set to None are both modelled as none. -/
structure FOutfit where
  top : Option Item := none
  bottom : Option Item := none
  shoes : Option Item := none
  outerwear : Option Item := none
  deriving DecidableEq, Repr

/-- The injected random source of one request: the anchor choice index, the two
    random.random() threshold outcomes, and the per-bucket choice indices. -/
structure Rng where
  anchorIdx : Nat := 0
  dressBranch : Bool := false
  dIdx : Nat := 0
  tIdx : Nat := 0
  bIdx : Nat := 0
  sIdx : Nat := 0
  outerBranch : Bool := false
  oIdx : Nat := 0
  deriving DecidableEq, Repr

/-- Anchor placement block of _generate_fallback_outfit (lines 218-229). -/
def anchorPlace (o : FOutfit) (anchor : Option Item) : FOutfit :=
  match anchor with
  | none => o
  | some a =>
    let g := a.garment_type
    if dressVocab.contains g then { o with top := some a, bottom := none }
    else if topVocab.contains g then { o with top := some a }
    else if bottomVocab.contains g then { o with bottom := some a }
    else if anchorShoesVocab.contains g then { o with shoes := some a }
    else o

/-- Gap-fill block lines 232-237: when neither top nor bottom is set, either a
    random dress for top, or independent random top and bottom. -/
def fillStep3 (tops bottoms dresses : List Item) (rng : Rng) (o : FOutfit) :
    Except String FOutfit :=
  if o.top.isNone && o.bottom.isNone then
    if (!dresses.isEmpty) && rng.dressBranch then do
      let d ← pyChoiceE rng.dIdx dresses
      pure { o with top := some d }
    else do
      let o2 ←
        if !tops.isEmpty then do
          let t ← pyChoiceE rng.tIdx tops
          pure { o with top := some t }
        else pure o
      if !bottoms.isEmpty then do
        let b ← pyChoiceE rng.bIdx bottoms
        pure { o2 with bottom := some b }
      else pure o2
  else pure o

/-- Gap-fill block lines 239-242: a non-dress top without a bottom gets a bottom. -/
def fillStep4 (bottoms : List Item) (rng : Rng) (o : FOutfit) : Except String FOutfit :=
  if o.top.isSome && o.bottom.isNone then
    let is_dress :=
      match o.top with
      | some t => dressVocab.contains t.garment_type
      | none => false
    if (!is_dress) && !bottoms.isEmpty then do
      let b ← pyChoiceE rng.bIdx bottoms
      pure { o with bottom := some b }
    else pure o
  else pure o

/-- Gap-fill block lines 244-245: a bottom without a top gets a top. -/
def fillStep5 (tops : List Item) (rng : Rng) (o : FOutfit) : Except String FOutfit :=
  if o.bottom.isSome && o.top.isNone then
    if !tops.isEmpty then do
      let t ← pyChoiceE rng.tIdx tops
      pure { o with top := some t }
    else pure o
  else pure o

/-- Gap-fill block lines 247-248: shoes. -/
def fillStep6 (shoes : List Item) (rng : Rng) (o : FOutfit) : Except String FOutfit :=
  if o.shoes.isNone && !shoes.isEmpty then do
    let s ← pyChoiceE rng.sIdx shoes
    pure { o with shoes := some s }
  else pure o

/-- Gap-fill block lines 250-251: outerwear with moderate probability. -/
def fillStep7 (outerwear : List Item) (rng : Rng) (o : FOutfit) : Except String FOutfit :=
  if (!outerwear.isEmpty) && rng.outerBranch then do
    let ow ← pyChoiceE rng.oIdx outerwear
    pure { o with outerwear := some ow }
  else pure o

/-- The outfit assembly of _generate_fallback_outfit (lines 209-251). -/
def fallbackAssemble (wardrobe : List Item) (rng : Rng) (anchor : Option Item) :
    Except String FOutfit := do
  let o := anchorPlace {} anchor
  let o ← fillStep3 (topsOf wardrobe) (bottomsOf wardrobe) (dressesOf wardrobe) rng o
  let o ← fillStep4 (bottomsOf wardrobe) rng o
  let o ← fillStep5 (topsOf wardrobe) rng o
  let o ← fillStep6 (shoesOf wardrobe) rng o
  fillStep7 (outerwearOf wardrobe) rng o

/-- A weather snapshot as returned by the weather collaborator. -/
structure Weather where
  temperature : Int := 72
  description : String := "clear"
  condition : String := "Clear"
  deriving DecidableEq, Repr

/-- The safe default weather of _generate_fallback_outfit (line 207). -/
def defaultFallbackWeather : Weather :=
  { temperature := 72, description := "Fair", condition := "Clear" }

/-- The generation context dict: absent keys are modelled as none or the empty
    list, matching context.get with its defaults. -/
structure Ctx where
  wardrobe_items : List Item := []
  worn_today : List Worn := []
  weather : Option Weather := none
  gender : Option String := none
  occasion : Option String := none
  city : Option String := none
  deriving DecidableEq, Repr

/-- The external collaborators of one generate_outfit request: the weather
    lookup (may raise), the remote generation call per attempt (returns
    response text or raises with a message), and json.loads (none on a
    JSONDecodeError). -/
structure Beh where
  weatherCall : Except String Weather
  gen : Nat → Except String String
  loads : String → Option OutfitData

/-- The outfit value attached to a result: the fallback assembler produces a
    slot record of item dicts, the AI path a resolved category mapping. -/
inductive OutfitVal
  | fb (o : FOutfit)
  | ai (m : List (String × Resolved))
  deriving DecidableEq, Repr

/-- The color_analysis value attached to a result: the fixed fallback
    placeholder dict of line 259, or a real analysis. -/
inductive CAField
  | manualFallback
  | analysis (a : ColorAnalysis)
  deriving DecidableEq, Repr

/-- The result dict returned by generate_outfit and _generate_fallback_outfit;
    keys absent from a given return are modelled as none. -/
structure Res where
  success : Bool
  message : String
  agent : Option String := none
  outfit : Option OutfitVal := none
  reasoning : Option String := none
  confidence_score : Option ℚ := none
  validation : Option VRes := none
  color_analysis : Option CAField := none
  weather : Option Weather := none
  occasion : Option String := none
  alternatives : Option (List String) := none
  styling_tips : Option (List String) := none
  deriving DecidableEq, Repr

/-- The fixed disclaimer reasoning of the fallback path (line 257). -/
def fallbackReasoningMsg : String :=
  "⚠️ AI Services are currently busy. This outfit was automatically assembled from your wardrobe based on color compatibility rules."

/-- PlannerAgent._generate_fallback_outfit (lines 198-263). -/
def generateFallbackOutfitE (ctx : Ctx) (rng : Rng) (anchor : Option Item) :
    Except String Res :=
  if ctx.wardrobe_items.isEmpty then
    Except.ok { success := false, message := "No wardrobe items available",
                outfit := some (OutfitVal.fb {}) }
  else do
    let weather := ctx.weather.getD defaultFallbackWeather
    let o ← fallbackAssemble ctx.wardrobe_items rng anchor
    pure { success := true
           agent := some "PlannerAgent"
           outfit := some (OutfitVal.fb o)
           reasoning := some fallbackReasoningMsg
           confidence_score := some (1/2)
           color_analysis := some CAField.manualFallback
           weather := some weather
           styling_tips := some ["Mix and match textures for interest.",
                                 "Add accessories to personalize this look."]
           message := "Outfit generated (Fallback Mode)" }

/-- The constant result of the planner stub _validate_outfit (lines 296-298). -/
def plannerValidationStub : VRes :=
  { valid := true, score := 8/10, issues := [] }

/-- The part of the generate_outfit try-block after the weather lookup (lines
    61-191). Prompt composition (lines 95-127) builds a string consumed only by
    the remote call and is elided; the remote behaviour is the parameter
    beh.gen. Line 59 has updated the context weather, so any fallback inside
    the try block sees it. -/
def genOutfitAfterWeather (ctx : Ctx) (beh : Beh) (rng : Rng) (weather : Weather) :
    Except String Res := do
  let ctxW := { ctx with weather := some weather }
  let gender := ctx.gender.getD "unisex"
  let occasion := ctx.occasion.getD "casual"
  let wardrobe := ctx.wardrobe_items
  let sel ← selectAnchorE rng.anchorIdx wardrobe ctx.worn_today
  let anchor := sel.1
  match (genClientLoop beh.gen).1 with
  | none => generateFallbackOutfitE ctxW rng anchor
  | some text =>
    let outfit_data := parseOutfitResponse beh.loads text
    if outfit_data.outfit.isEmpty then generateFallbackOutfitE ctxW rng anchor
    else
      let resolved := resolveItemImages outfit_data.outfit wardrobe
      let outfit_items := wardrobe.take 3
      pure { success := true
             agent := some "PlannerAgent"
             outfit := some (OutfitVal.ai resolved)
             reasoning := some (outfit_data.reasoning.getD "")
             confidence_score := some (outfit_data.confidence_score.getD (8/10))
             validation := some plannerValidationStub
             color_analysis := some (CAField.analysis (analyze_outfit_colors outfit_items))
             weather := some weather
             occasion := some occasion
             alternatives := some outfit_data.alternatives
             styling_tips := some (get_styling_tips gender occasion)
             message := "Outfit generated successfully" }

/-- The try-block body of PlannerAgent.generate_outfit (lines 52-191): fetch
    the weather if missing (the lookup may raise), then the rest. -/
def genOutfitBody (ctx : Ctx) (beh : Beh) (rng : Rng) : Except String Res := do
  let weather ←
    match ctx.weather with
    | some w => pure w
    | none => beh.weatherCall
  genOutfitAfterWeather ctx beh rng weather

/-- PlannerAgent.generate_outfit (lines 38-196): the try-block body with the
    outer except handler, which falls back with a null anchor. -/
def generate_outfit (ctx : Ctx) (beh : Beh) (rng : Rng) : Except String Res :=
  match genOutfitBody ctx beh rng with
  | Except.ok r => Except.ok r
  | Except.error _ => generateFallbackOutfitE ctx rng none

/-- The result dict seen by the caller; the error side is unreachable (proved
    below) and mapped to a marker result. -/
def genResult (ctx : Ctx) (beh : Beh) (rng : Rng) : Res :=
  match generate_outfit ctx beh rng with
  | Except.ok r => r
  | Except.error e => { success := false, message := "UNCAUGHT: " ++ e }

/-- MAX_RETRIES from src/config/settings.py line 47. -/
def MAX_RETRIES : Nat := 3

/-- The attribute record parsed from a vision response, before tag_garment adds
    its metadata keys. -/
structure TagsCore where
  garment_type : String := "unknown"
  gender_category : String := "unisex"
  color : String := "unknown"
  secondary_colors : List String := []
  pattern : String := "unknown"
  formality : String := "casual"
  season : List String := []
  material : String := "unknown"
  style_tags : List String := []
  brand : Option String := none
  condition : String := "good"
  deriving DecidableEq, Repr

/-- A TagResult: the attribute record plus the metadata keys added by
    tag_garment, and the optional error of the fallback record. -/
structure Tags extends TagsCore where
  image_path : String := ""
  tagged_by : String := ""
  error : Option String := none
  deriving DecidableEq, Repr

/-- The metadata attachment of the success path (lines 62-63). -/
def mkSuccessTags (core : TagsCore) (image_path : String) : Tags :=
  { toTagsCore := core, image_path := image_path, tagged_by := "gemini-vision", error := none }

/-- ImageTagger._fallback_tags (lines 79-96). -/
def fallbackTags (image_path : String) (error : String) : Tags :=
  { garment_type := "unknown"
    gender_category := "unisex"
    color := "unknown"
    secondary_colors := []
    pattern := "unknown"
    formality := "casual"
    season := ["spring", "summer", "fall", "winter"]
    material := "unknown"
    style_tags := []
    brand := none
    condition := "good"
    image_path := image_path
    tagged_by := "fallback"
    error := some error }

/-- The for attempt in range(MAX_RETRIES) loop of tag_garment (lines 35-77).
    One attempt bundles image load, remote call and parse (parameter att); a
    non-final failure sleeps 2 to the power attempt+1 seconds, recorded in the
    sleeps list. Falling out of the loop returns Python None, modelled none. -/
def tagLoop (att : Nat → Except String TagsCore) (image_path : String) :
    Nat → Nat → List Nat → Option Tags × List Nat
  | _, 0, sleeps => (none, sleeps)
  | attempt, Nat.succ rem, sleeps =>
    match att attempt with
    | Except.ok core => (some (mkSuccessTags core image_path), sleeps)
    | Except.error e =>
      if attempt = MAX_RETRIES - 1 then (some (fallbackTags image_path e), sleeps)
      else tagLoop att image_path (attempt + 1) rem (sleeps ++ [2 ^ (attempt + 1)])

/-- ImageTagger.tag_garment (lines 25-77), returning the TagResult and the
    backoff sleep durations performed. -/
def tag_garment (att : Nat → Except String TagsCore) (image_path : String) :
    Option Tags × List Nat :=
  tagLoop att image_path 0 MAX_RETRIES []

/-- required_fields of PerceptionAgent.validate_garment_data (line 114). -/
def requiredFields : List String := ["garment_type", "color", "formality", "season"]

/-- Truthiness of tags.get(field) for the required fields. -/
def tagFieldTruthy (t : Tags) : String → Bool
  | "garment_type" => t.garment_type != ""
  | "color" => t.color != ""
  | "formality" => t.formality != ""
  | "season" => !t.season.isEmpty
  | _ => false

/-- Result shape of validate_garment_data. -/
structure VGRes where
  valid : Bool
  missing_fields : List String
  message : String
  deriving DecidableEq, Repr

/-- PerceptionAgent.validate_garment_data (src/agents/perception_agent.py
    lines 104-129). -/
def validate_garment_data (t : Tags) : VGRes :=
  let missing := requiredFields.filter (fun f => !tagFieldTruthy t f)
  if missing.isEmpty then
    { valid := true, missing_fields := [], message := "All required fields present" }
  else
    { valid := false, missing_fields := missing,
      message := "Missing required fields: " ++ String.intercalate ", " missing }

/-! Concrete sample inputs used by the witnesses and counterexamples below. -/

def itShirt7 : Item := { id := 7, garment_type := "shirt", color := "red" }

def itJacket5 : Item := { id := 5, garment_type := "jacket", color := "red" }

/-- A worn-today outfit that references item 5 only through its outerwear slot. -/
def wornOuter5 : Worn := { outerwear := some itJacket5 }

def itShirt1 : Item := { id := 1, garment_type := "shirt", color := "blue" }

/-- A worn-today outfit that references item 1 through its top slot. -/
def wornTop1 : Worn := { top := some itShirt1 }

def itSneakers3 : Item := { id := 3, garment_type := "sneakers", color := "white" }

def itHeels1 : Item := { id := 1, garment_type := "heels", color := "black" }

def itSneakers2 : Item := { id := 2, garment_type := "sneakers", color := "white" }

/-- A random source whose shoe-slot choice index is 1. -/
def rngShoePick1 : Rng := { sIdx := 1 }

def rng0 : Rng := {}

/-- A remote service that always fails with a quota error; json.loads never used. -/
def behQuota : Beh :=
  { weatherCall := Except.ok {},
    gen := fun _ => Except.error "429 Resource has been exhausted (check quota).",
    loads := fun _ => none }

/-- A parsed generation payload placing one description in the top category. -/
def odTop7 : OutfitData :=
  { outfit := [("top", "Item #7 blue shirt")], reasoning := some "matches",
    confidence_score := some (9/10) }

/-- A remote service whose response text is a brace pair that loads as odTop7. -/
def behAI : Beh :=
  { weatherCall := Except.ok {},
    gen := fun _ => Except.ok "\x7b\x7d",
    loads := fun _ => some odTop7 }

def ctxShoesOnly : Ctx := { wardrobe_items := [itSneakers3], weather := some {} }

def ctxShirt7 : Ctx := { wardrobe_items := [itShirt7], weather := some {} }

def ctxEmpty : Ctx := {}

/-! Helper lemmas. -/

theorem exceptBindOk {ε α β : Type} (a : α) (f : α → Except ε β) :
    (Except.ok a >>= f) = f a := rfl

theorem ne_nil_of_isEmpty_false {α : Type} {l : List α} (h : l.isEmpty = false) : l ≠ [] := by
  cases l <;> simp_all

theorem isEmpty_false_of_ne_nil {α : Type} {l : List α} (h : l ≠ []) : l.isEmpty = false := by
  cases l <;> simp_all

theorem pyChoiceE_ok {α : Type} (idx : Nat) (l : List α) (h : l ≠ []) :
    ∃ a, pyChoiceE idx l = Except.ok a ∧ a ∈ l := by
  have hlen : 0 < l.length := List.length_pos.mpr h
  have hmod : idx % l.length < l.length := Nat.mod_lt _ hlen
  refine ⟨l.get ⟨idx % l.length, hmod⟩, ?_, List.get_mem _ _ _⟩
  unfold pyChoiceE
  rw [List.get?_eq_get hmod]

theorem pyChoiceE_mem {α : Type} {idx : Nat} {l : List α} {a : α}
    (h : pyChoiceE idx l = Except.ok a) : a ∈ l := by
  unfold pyChoiceE at h
  cases hg : l.get? (idx % l.length) with
  | none => rw [hg] at h; exact absurd h (by simp)
  | some b =>
    rw [hg] at h
    have hb : b = a := by injection h
    exact hb ▸ List.get?_mem hg

theorem mem_wornIdStep {acc : List Nat} {it : Option Item} {n : Nat} :
    n ∈ wornIdStep acc it ↔ n ∈ acc ∨ (n ≠ 0 ∧ ∃ i, it = some i ∧ i.id = n) := by
  cases it with
  | none => simp [wornIdStep]
  | some i =>
    by_cases h : i.id = 0
    · have he : wornIdStep acc (some i) = acc := by simp [wornIdStep, h]
      rw [he]
      constructor
      · exact fun ha => Or.inl ha
      · rintro (ha | ⟨hn, i2, hi2, hid⟩)
        · exact ha
        · exfalso
          injection hi2 with he2
          rw [he2] at h
          exact hn (hid ▸ h ▸ rfl)
    · have he : wornIdStep acc (some i) = acc ++ [i.id] := by simp [wornIdStep, h]
      rw [he, List.mem_append, List.mem_singleton]
      constructor
      · rintro (ha | rfl)
        · exact Or.inl ha
        · exact Or.inr ⟨h, i, rfl, rfl⟩
      · rintro (ha | ⟨hn, i2, hi2, hid⟩)
        · exact Or.inl ha
        · injection hi2 with he2
          exact Or.inr (by rw [he2]; exact hid.symm)

theorem mem_wornOutfitIds {acc : List Nat} {w : Worn} {n : Nat} :
    n ∈ wornOutfitIds acc w ↔
      n ∈ acc ∨ (n ≠ 0 ∧ ∃ i,
        (w.top = some i ∨ w.bottom = some i ∨ w.shoes = some i ∨ w.dress = some i) ∧
        i.id = n) := by
  simp only [wornOutfitIds, List.foldl_cons, List.foldl_nil, mem_wornIdStep]
  constructor
  · rintro ((((ha | ⟨hn, i, hi, hid⟩) | ⟨hn, i, hi, hid⟩) | ⟨hn, i, hi, hid⟩) | ⟨hn, i, hi, hid⟩)
    · exact Or.inl ha
    · exact Or.inr ⟨hn, i, Or.inl hi, hid⟩
    · exact Or.inr ⟨hn, i, Or.inr (Or.inl hi), hid⟩
    · exact Or.inr ⟨hn, i, Or.inr (Or.inr (Or.inl hi)), hid⟩
    · exact Or.inr ⟨hn, i, Or.inr (Or.inr (Or.inr hi)), hid⟩
  · rintro (ha | ⟨hn, i, (hi | hi | hi | hi), hid⟩)
    · exact Or.inl (Or.inl (Or.inl (Or.inl ha)))
    · exact Or.inl (Or.inl (Or.inl (Or.inr ⟨hn, i, hi, hid⟩)))
    · exact Or.inl (Or.inl (Or.inr ⟨hn, i, hi, hid⟩))
    · exact Or.inl (Or.inr ⟨hn, i, hi, hid⟩)
    · exact Or.inr ⟨hn, i, hi, hid⟩

theorem mem_computeWornIds_general (worn : List Worn) (acc : List Nat) (n : Nat) :
    n ∈ worn.foldl wornOutfitIds acc ↔
      n ∈ acc ∨ (n ≠ 0 ∧ ∃ w, w ∈ worn ∧ ∃ i,
        (w.top = some i ∨ w.bottom = some i ∨ w.shoes = some i ∨ w.dress = some i) ∧
        i.id = n) := by
  induction worn generalizing acc with
  | nil => simp
  | cons w ws ih =>
    rw [List.foldl_cons, ih, mem_wornOutfitIds]
    constructor
    · rintro ((ha | ⟨hn, i, hi, hid⟩) | ⟨hn, w', hw', hrest⟩)
      · exact Or.inl ha
      · exact Or.inr ⟨hn, w, List.mem_cons_self _ _, i, hi, hid⟩
      · exact Or.inr ⟨hn, w', List.mem_cons_of_mem _ hw', hrest⟩
    · rintro (ha | ⟨hn, w', hw', hrest⟩)
      · exact Or.inl (Or.inl ha)
      · rcases List.mem_cons.mp hw' with rfl | hw''
        · exact Or.inl (Or.inr ⟨hn, hrest⟩)
        · exact Or.inr ⟨hn, w', hw'', hrest⟩

theorem mem_computeWornIds {worn : List Worn} {n : Nat} :
    n ∈ computeWornIds worn ↔ WornRef worn n := by
  rw [computeWornIds, mem_computeWornIds_general, WornRef]
  simp

theorem exceptPure {ε α : Type} (a : α) : (pure a : Except ε α) = Except.ok a := rfl

theorem eq_nil_of_isEmpty {α : Type} {l : List α} (h : l.isEmpty = true) : l = [] := by
  cases l <;> simp_all


theorem boolAndSplit {a b : Bool} (h : (a && b) = true) : a = true ∧ b = true := by
  cases a <;> cases b <;> simp_all

theorem boolNotTrue {a : Bool} (h : ¬ a = true) : a = false := by
  cases a <;> simp_all

theorem fillStep3_spec (t bt d : List Item) (rng : Rng) (o : FOutfit) :
    ∃ o2, fillStep3 t bt d rng o = Except.ok o2 ∧
      o2.shoes = o.shoes ∧ o2.outerwear = o.outerwear ∧
      (o.top.isSome = true → o2 = o) ∧
      (o.bottom.isSome = true → o2 = o) ∧
      (o.top = none → o.bottom = none → t ≠ [] → o2.top.isSome = true) := by
  by_cases h1 : (o.top.isNone && o.bottom.isNone) = true
  · have htop : o.top = none :=
      Option.isNone_iff_eq_none.mp (boolAndSplit h1).1
    have hbot : o.bottom = none :=
      Option.isNone_iff_eq_none.mp (boolAndSplit h1).2
    by_cases h2 : ((!d.isEmpty) && rng.dressBranch) = true
    · have hd : d ≠ [] :=
        ne_nil_of_isEmpty_false (by simpa using (boolAndSplit h2).1)
      obtain ⟨x, hx, _⟩ := pyChoiceE_ok rng.dIdx d hd
      refine ⟨{ o with top := some x }, ?_, rfl, rfl, ?_, ?_, ?_⟩
      · simp [fillStep3, h1, h2, hx, exceptBindOk, exceptPure]
      · intro hts; rw [htop] at hts; exact absurd hts (by simp)
      · intro hbs; rw [hbot] at hbs; exact absurd hbs (by simp)
      · intro _ _ _; rfl
    · have h2f : ((!d.isEmpty) && rng.dressBranch) = false := boolNotTrue h2
      by_cases h3 : t.isEmpty = true
      · have ht : t = [] := eq_nil_of_isEmpty h3
        by_cases h4 : bt.isEmpty = true
        · refine ⟨o, ?_, rfl, rfl, fun _ => rfl, fun _ => rfl, ?_⟩
          · simp [fillStep3, h1, h2f, h3, h4, exceptBindOk, exceptPure]
          · intro _ _ htne; exact absurd ht htne
        · have h4f : bt.isEmpty = false := boolNotTrue h4
          have hb : bt ≠ [] := ne_nil_of_isEmpty_false h4f
          obtain ⟨y, hy, _⟩ := pyChoiceE_ok rng.bIdx bt hb
          refine ⟨{ o with bottom := some y }, ?_, rfl, rfl, ?_, ?_, ?_⟩
          · simp [fillStep3, h1, h2f, h3, h4f, hy, exceptBindOk, exceptPure]
          · intro hts; rw [htop] at hts; exact absurd hts (by simp)
          · intro hbs; rw [hbot] at hbs; exact absurd hbs (by simp)
          · intro _ _ htne; exact absurd ht htne
      · have h3f : t.isEmpty = false := boolNotTrue h3
        have ht : t ≠ [] := ne_nil_of_isEmpty_false h3f
        obtain ⟨x, hx, _⟩ := pyChoiceE_ok rng.tIdx t ht
        by_cases h4 : bt.isEmpty = true
        · refine ⟨{ o with top := some x }, ?_, rfl, rfl, ?_, ?_, ?_⟩
          · simp [fillStep3, h1, h2f, h3f, h4, hx, exceptBindOk, exceptPure]
          · intro hts; rw [htop] at hts; exact absurd hts (by simp)
          · intro hbs; rw [hbot] at hbs; exact absurd hbs (by simp)
          · intro _ _ _; rfl
        · have h4f : bt.isEmpty = false := boolNotTrue h4
          have hb : bt ≠ [] := ne_nil_of_isEmpty_false h4f
          obtain ⟨y, hy, _⟩ := pyChoiceE_ok rng.bIdx bt hb
          refine ⟨{ o with top := some x, bottom := some y }, ?_, rfl, rfl, ?_, ?_, ?_⟩
          · simp [fillStep3, h1, h2f, h3f, h4f, hx, hy, exceptBindOk, exceptPure]
          · intro hts; rw [htop] at hts; exact absurd hts (by simp)
          · intro hbs; rw [hbot] at hbs; exact absurd hbs (by simp)
          · intro _ _ _; rfl
  · have h1f : (o.top.isNone && o.bottom.isNone) = false := boolNotTrue h1
    refine ⟨o, ?_, rfl, rfl, fun _ => rfl, fun _ => rfl, ?_⟩
    · simp [fillStep3, h1f, exceptPure]
    · intro ht hb _
      exfalso
      rw [ht, hb] at h1f
      simp at h1f

theorem fillStep4_spec (bt : List Item) (rng : Rng) (o : FOutfit) :
    ∃ o2, fillStep4 bt rng o = Except.ok o2 ∧
      o2.top = o.top ∧ o2.shoes = o.shoes ∧ o2.outerwear = o.outerwear ∧
      (o.bottom.isSome = true → o2 = o) ∧
      (o.top = none → o2 = o) ∧
      (∀ a, o.top = some a → dressVocab.contains a.garment_type = true → o2 = o) := by
  by_cases h1 : (o.top.isSome && o.bottom.isNone) = true
  · have htop : o.top.isSome = true := (boolAndSplit h1).1
    have hbot : o.bottom = none :=
      Option.isNone_iff_eq_none.mp (boolAndSplit h1).2
    obtain ⟨ta, hta⟩ := Option.isSome_iff_exists.mp htop
    by_cases hd : dressVocab.contains ta.garment_type = true
    · have hdMem : ta.garment_type ∈ dressVocab := by simpa using hd
      refine ⟨o, ?_, rfl, rfl, rfl, fun _ => rfl, fun _ => rfl, fun _ _ _ => rfl⟩
      simp [fillStep4, h1, hta, hbot, hdMem, exceptPure]
    · have hdf : dressVocab.contains ta.garment_type = false := boolNotTrue hd
      have hdNot : ta.garment_type ∉ dressVocab := by simpa using hdf
      by_cases hbe : bt.isEmpty = true
      · refine ⟨o, ?_, rfl, rfl, rfl, fun _ => rfl, fun _ => rfl, fun _ _ _ => rfl⟩
        simp [fillStep4, h1, hta, hbot, hdNot, hbe, eq_nil_of_isEmpty hbe, exceptPure]
      · have hbf : bt.isEmpty = false := boolNotTrue hbe
        have hb : bt ≠ [] := ne_nil_of_isEmpty_false hbf
        obtain ⟨y, hy, _⟩ := pyChoiceE_ok rng.bIdx bt hb
        refine ⟨{ o with bottom := some y }, ?_, rfl, rfl, rfl, ?_, ?_, ?_⟩
        · simp [fillStep4, h1, hta, hbot, hdNot, hbf, hy, exceptBindOk, exceptPure]
        · intro hbs; rw [hbot] at hbs; exact absurd hbs (by simp)
        · intro htn; rw [htn] at hta; exact absurd hta (by simp)
        · intro a ha hda
          exfalso
          rw [hta] at ha
          injection ha with ha
          rw [ha] at hdf
          rw [hda] at hdf
          exact absurd hdf (by simp)
  · have h1f : (o.top.isSome && o.bottom.isNone) = false := boolNotTrue h1
    refine ⟨o, ?_, rfl, rfl, rfl, fun _ => rfl, fun _ => rfl, fun _ _ _ => rfl⟩
    simp [fillStep4, h1f, exceptPure]

theorem fillStep5_spec (t : List Item) (rng : Rng) (o : FOutfit) :
    ∃ o2, fillStep5 t rng o = Except.ok o2 ∧
      o2.bottom = o.bottom ∧ o2.shoes = o.shoes ∧ o2.outerwear = o.outerwear ∧
      (o.top.isSome = true → o2 = o) ∧
      (o.bottom = none → o2 = o) ∧
      (o.bottom.isSome = true → o.top = none → t ≠ [] → o2.top.isSome = true) := by
  by_cases h1 : (o.bottom.isSome && o.top.isNone) = true
  · have hbot : o.bottom.isSome = true := (boolAndSplit h1).1
    have htop : o.top = none :=
      Option.isNone_iff_eq_none.mp (boolAndSplit h1).2
    by_cases h2 : t.isEmpty = true
    · have ht : t = [] := eq_nil_of_isEmpty h2
      refine ⟨o, ?_, rfl, rfl, rfl, fun _ => rfl, fun _ => rfl, ?_⟩
      · simp [fillStep5, h1, h2, exceptPure]
      · intro _ _ htne; exact absurd ht htne
    · have h2f : t.isEmpty = false := boolNotTrue h2
      have ht : t ≠ [] := ne_nil_of_isEmpty_false h2f
      obtain ⟨x, hx, _⟩ := pyChoiceE_ok rng.tIdx t ht
      refine ⟨{ o with top := some x }, ?_, rfl, rfl, rfl, ?_, ?_, ?_⟩
      · simp [fillStep5, h1, h2f, hx, exceptBindOk, exceptPure]
      · intro hts; rw [htop] at hts; exact absurd hts (by simp)
      · intro hbn; rw [hbn] at hbot; exact absurd hbot (by simp)
      · intro _ _ _; rfl
  · have h1f : (o.bottom.isSome && o.top.isNone) = false := boolNotTrue h1
    refine ⟨o, ?_, rfl, rfl, rfl, fun _ => rfl, fun _ => rfl, ?_⟩
    · simp [fillStep5, h1f, exceptPure]
    · intro hbs htn _
      exfalso
      rw [htn, hbs] at h1f
      simp at h1f

theorem fillStep6_spec (s : List Item) (rng : Rng) (o : FOutfit) :
    ∃ o2, fillStep6 s rng o = Except.ok o2 ∧
      o2.top = o.top ∧ o2.bottom = o.bottom ∧ o2.outerwear = o.outerwear ∧
      (o.shoes.isSome = true → o2 = o) := by
  by_cases h1 : (o.shoes.isNone && !s.isEmpty) = true
  · have hsh : o.shoes = none :=
      Option.isNone_iff_eq_none.mp (boolAndSplit h1).1
    have hs : s ≠ [] :=
      ne_nil_of_isEmpty_false (by simpa using (boolAndSplit h1).2)
    obtain ⟨x, hx, _⟩ := pyChoiceE_ok rng.sIdx s hs
    refine ⟨{ o with shoes := some x }, ?_, rfl, rfl, rfl, ?_⟩
    · simp [fillStep6, h1, hx, exceptBindOk, exceptPure]
    · intro hss; rw [hsh] at hss; exact absurd hss (by simp)
  · have h1f : (o.shoes.isNone && !s.isEmpty) = false := boolNotTrue h1
    refine ⟨o, ?_, rfl, rfl, rfl, fun _ => rfl⟩
    simp [fillStep6, h1f, exceptPure]

theorem fillStep7_spec (ow : List Item) (rng : Rng) (o : FOutfit) :
    ∃ o2, fillStep7 ow rng o = Except.ok o2 ∧
      o2.top = o.top ∧ o2.bottom = o.bottom ∧ o2.shoes = o.shoes := by
  by_cases h1 : ((!ow.isEmpty) && rng.outerBranch) = true
  · have how : ow ≠ [] :=
      ne_nil_of_isEmpty_false (by simpa using (boolAndSplit h1).1)
    obtain ⟨x, hx, _⟩ := pyChoiceE_ok rng.oIdx ow how
    refine ⟨{ o with outerwear := some x }, ?_, rfl, rfl, rfl⟩
    simp [fillStep7, h1, hx, exceptBindOk, exceptPure]
  · have h1f : ((!ow.isEmpty) && rng.outerBranch) = false := boolNotTrue h1
    refine ⟨o, ?_, rfl, rfl, rfl⟩
    simp [fillStep7, h1f, exceptPure]

theorem top_not_dress {g : String} (h : topVocab.contains g = true) :
    dressVocab.contains g = false := by
  have hm : g ∈ topVocab := by simpa using h
  simp only [topVocab, List.mem_cons, List.mem_singleton] at hm
  rcases hm with rfl | rfl | rfl | rfl | rfl | hm
  · decide
  · decide
  · decide
  · decide
  · decide
  · exact absurd hm (List.not_mem_nil g)

theorem bottom_not_dress_top {g : String} (h : bottomVocab.contains g = true) :
    dressVocab.contains g = false ∧ topVocab.contains g = false := by
  have hm : g ∈ bottomVocab := by simpa using h
  simp only [bottomVocab, List.mem_cons, List.mem_singleton] at hm
  rcases hm with rfl | rfl | rfl | rfl | rfl | hm
  · exact ⟨by decide, by decide⟩
  · exact ⟨by decide, by decide⟩
  · exact ⟨by decide, by decide⟩
  · exact ⟨by decide, by decide⟩
  · exact ⟨by decide, by decide⟩
  · exact absurd hm (List.not_mem_nil g)

theorem ashoes_not_others {g : String} (h : anchorShoesVocab.contains g = true) :
    dressVocab.contains g = false ∧ topVocab.contains g = false ∧
    bottomVocab.contains g = false := by
  have hm : g ∈ anchorShoesVocab := by simpa using h
  simp only [anchorShoesVocab, List.mem_cons, List.mem_singleton] at hm
  rcases hm with rfl | rfl | rfl | hm
  · exact ⟨by decide, by decide, by decide⟩
  · exact ⟨by decide, by decide, by decide⟩
  · exact ⟨by decide, by decide, by decide⟩
  · exact absurd hm (List.not_mem_nil g)

theorem anchorPlace_dress {a : Item} (h : dressVocab.contains a.garment_type = true) :
    anchorPlace {} (some a) = { top := some a } := by
  have hm : a.garment_type ∈ dressVocab := by simpa using h
  simp [anchorPlace, hm]

theorem anchorPlace_top {a : Item} (h : topVocab.contains a.garment_type = true) :
    anchorPlace {} (some a) = { top := some a } := by
  have hd := top_not_dress h
  have hm : a.garment_type ∈ topVocab := by simpa using h
  have hdm : a.garment_type ∉ dressVocab := by simpa using hd
  simp [anchorPlace, hm, hdm]

theorem anchorPlace_bottom {a : Item} (h : bottomVocab.contains a.garment_type = true) :
    anchorPlace {} (some a) = { bottom := some a } := by
  obtain ⟨hd, ht⟩ := bottom_not_dress_top h
  have hm : a.garment_type ∈ bottomVocab := by simpa using h
  have hdm : a.garment_type ∉ dressVocab := by simpa using hd
  have htm : a.garment_type ∉ topVocab := by simpa using ht
  simp [anchorPlace, hm, hdm, htm]

theorem anchorPlace_shoes {a : Item} (h : anchorShoesVocab.contains a.garment_type = true) :
    anchorPlace {} (some a) = { shoes := some a } := by
  obtain ⟨hd, ht, hb⟩ := ashoes_not_others h
  have hm : a.garment_type ∈ anchorShoesVocab := by simpa using h
  have hdm : a.garment_type ∉ dressVocab := by simpa using hd
  have htm : a.garment_type ∉ topVocab := by simpa using ht
  have hbm : a.garment_type ∉ bottomVocab := by simpa using hb
  simp [anchorPlace, hm, hdm, htm, hbm]

theorem fallbackAssemble_top_spec (w : List Item) (rng : Rng) (anchor : Option Item) :
    ∃ o, fallbackAssemble w rng anchor = Except.ok o ∧
      (topsOf w ≠ [] → o.top.isSome = true) := by
  obtain ⟨o2, h2, h2sh, h2ow, h2ts, h2bs, h2fill⟩ :=
    fillStep3_spec (topsOf w) (bottomsOf w) (dressesOf w) rng (anchorPlace {} anchor)
  obtain ⟨o3, h3, h3top, h3sh, h3ow, h3bs, h3tn, h3dr⟩ := fillStep4_spec (bottomsOf w) rng o2
  obtain ⟨o4, h4, h4bot, h4sh, h4ow, h4ts, h4bn, h4fill⟩ := fillStep5_spec (topsOf w) rng o3
  obtain ⟨o5, h5, h5top, h5bot, h5ow, h5ss⟩ := fillStep6_spec (shoesOf w) rng o4
  obtain ⟨o6, h6, h6top, h6bot, h6sh⟩ := fillStep7_spec (outerwearOf w) rng o5
  refine ⟨o6, ?_, ?_⟩
  · simp only [fallbackAssemble, h2, exceptBindOk, h3, h4, h5, h6]
  · intro htops
    have htop46 : o6.top = o4.top := by rw [h6top, h5top]
    rw [htop46]
    cases ho1t : (anchorPlace {} anchor).top with
    | some a =>
      have e2 : o2 = anchorPlace {} anchor := h2ts (by rw [ho1t]; rfl)
      have ho2t : o2.top = some a := by rw [e2, ho1t]
      have ho3t : o3.top = some a := by rw [h3top, ho2t]
      have e4 : o4 = o3 := h4ts (by rw [ho3t]; rfl)
      rw [e4, ho3t]
      rfl
    | none =>
      cases ho1b : (anchorPlace {} anchor).bottom with
      | some b =>
        have e2 : o2 = anchorPlace {} anchor := h2bs (by rw [ho1b]; rfl)
        have ho2t : o2.top = none := by rw [e2, ho1t]
        have ho2b : o2.bottom = some b := by rw [e2, ho1b]
        have e3 : o3 = o2 := h3tn ho2t
        exact h4fill (by rw [e3, ho2b]; rfl) (by rw [e3, ho2t]) htops
      | none =>
        have ho2t : o2.top.isSome = true := h2fill ho1t ho1b htops
        have ho3t : o3.top.isSome = true := by rw [h3top]; exact ho2t
        have e4 : o4 = o3 := h4ts ho3t
        rw [e4]
        exact ho3t

theorem fallbackAssemble_anchor_spec (w : List Item) (rng : Rng) (a : Item) :
    ∃ o, fallbackAssemble w rng (some a) = Except.ok o ∧
      (dressVocab.contains a.garment_type = true → o.top = some a ∧ o.bottom = none) ∧
      (topVocab.contains a.garment_type = true → o.top = some a) ∧
      (bottomVocab.contains a.garment_type = true → o.bottom = some a) ∧
      (anchorShoesVocab.contains a.garment_type = true → o.shoes = some a) := by
  obtain ⟨o2, h2, h2sh, h2ow, h2ts, h2bs, h2fill⟩ :=
    fillStep3_spec (topsOf w) (bottomsOf w) (dressesOf w) rng (anchorPlace {} (some a))
  obtain ⟨o3, h3, h3top, h3sh, h3ow, h3bs, h3tn, h3dr⟩ := fillStep4_spec (bottomsOf w) rng o2
  obtain ⟨o4, h4, h4bot, h4sh, h4ow, h4ts, h4bn, h4fill⟩ := fillStep5_spec (topsOf w) rng o3
  obtain ⟨o5, h5, h5top, h5bot, h5ow, h5ss⟩ := fillStep6_spec (shoesOf w) rng o4
  obtain ⟨o6, h6, h6top, h6bot, h6sh⟩ := fillStep7_spec (outerwearOf w) rng o5
  refine ⟨o6, ?_, ?_, ?_, ?_, ?_⟩
  · simp only [fallbackAssemble, h2, exceptBindOk, h3, h4, h5, h6]
  · intro hDress
    have hp := anchorPlace_dress hDress
    have e2 : o2 = anchorPlace {} (some a) := h2ts (by rw [hp]; rfl)
    have ho2t : o2.top = some a := by rw [e2, hp]
    have ho2b : o2.bottom = none := by rw [e2, hp]
    have e3 : o3 = o2 := h3dr a ho2t hDress
    have e4 : o4 = o3 := h4ts (by rw [e3, ho2t]; rfl)
    constructor
    · rw [h6top, h5top, e4, e3, ho2t]
    · rw [h6bot, h5bot, h4bot, e3, ho2b]
  · intro hTop
    have hp := anchorPlace_top hTop
    have e2 : o2 = anchorPlace {} (some a) := h2ts (by rw [hp]; rfl)
    have ho2t : o2.top = some a := by rw [e2, hp]
    have ho3t : o3.top = some a := by rw [h3top, ho2t]
    have e4 : o4 = o3 := h4ts (by rw [ho3t]; rfl)
    rw [h6top, h5top, e4, ho3t]
  · intro hBottom
    have hp := anchorPlace_bottom hBottom
    have e2 : o2 = anchorPlace {} (some a) := h2bs (by rw [hp]; rfl)
    have ho2b : o2.bottom = some a := by rw [e2, hp]
    have e3 : o3 = o2 := h3bs (by rw [ho2b]; rfl)
    rw [h6bot, h5bot, h4bot, e3, ho2b]
  · intro hShoes
    have hp := anchorPlace_shoes hShoes
    have ho1s : (anchorPlace {} (some a)).shoes = some a := by rw [hp]
    have ho2s : o2.shoes = some a := by rw [h2sh, ho1s]
    have ho3s : o3.shoes = some a := by rw [h3sh, ho2s]
    have ho4s : o4.shoes = some a := by rw [h4sh, ho3s]
    have e5 : o5 = o4 := h5ss (by rw [ho4s]; rfl)
    rw [h6sh, e5, ho4s]

theorem generateFallback_spec (ctx : Ctx) (rng : Rng) (anchor : Option Item) :
    ∃ r, generateFallbackOutfitE ctx rng anchor = Except.ok r ∧
      r.success = !ctx.wardrobe_items.isEmpty ∧
      r.validation = none ∧
      (ctx.wardrobe_items.isEmpty = false →
        r.message = "Outfit generated (Fallback Mode)" ∧
        r.color_analysis = some CAField.manualFallback ∧
        ∃ o, fallbackAssemble ctx.wardrobe_items rng anchor = Except.ok o ∧
          r.outfit = some (OutfitVal.fb o)) := by
  by_cases he : ctx.wardrobe_items.isEmpty = true
  · refine ⟨{ success := false, message := "No wardrobe items available",
              outfit := some (OutfitVal.fb {}) }, ?_, ?_, rfl, ?_⟩
    · simp [generateFallbackOutfitE, he]
    · rw [he]; rfl
    · intro hf; rw [he] at hf; exact absurd hf (by simp)
  · have hef : ctx.wardrobe_items.isEmpty = false := boolNotTrue he
    obtain ⟨o, ho, _⟩ := fallbackAssemble_top_spec ctx.wardrobe_items rng anchor
    refine ⟨{ success := true, agent := some "PlannerAgent",
              outfit := some (OutfitVal.fb o),
              reasoning := some fallbackReasoningMsg, confidence_score := some (1/2),
              color_analysis := some CAField.manualFallback,
              weather := some (ctx.weather.getD defaultFallbackWeather),
              styling_tips := some ["Mix and match textures for interest.",
                                    "Add accessories to personalize this look."],
              message := "Outfit generated (Fallback Mode)" }, ?_, ?_, rfl, ?_⟩
    · simp only [generateFallbackOutfitE, hef, Bool.false_eq_true, if_false, ho,
        exceptBindOk, exceptPure]
    · rw [hef]; rfl
    · exact fun _ => ⟨rfl, rfl, o, ho, rfl⟩

theorem selectAnchorE_spec (idx : Nat) (w : List Item) (worn : List Worn) :
    ∃ p, selectAnchorE idx w worn = Except.ok p ∧
      (w ≠ [] → validItems w worn = [] →
        p.2 = true ∧ ∃ a, p.1 = some a ∧ a ∈ w) := by
  by_cases he : w.isEmpty = true
  · refine ⟨(none, false), ?_, ?_⟩
    · simp [selectAnchorE, he]
    · intro hne _; exact absurd (eq_nil_of_isEmpty he) hne
  · have hef : w.isEmpty = false := boolNotTrue he
    have hw : w ≠ [] := ne_nil_of_isEmpty_false hef
    by_cases hv : (validItems w worn).isEmpty = true
    · obtain ⟨a, ha, ham⟩ := pyChoiceE_ok idx w hw
      refine ⟨(some a, true), ?_, fun _ _ => ⟨rfl, a, rfl, ham⟩⟩
      simp only [selectAnchorE, hef, Bool.false_eq_true, if_false, hv]
      simp [ha, exceptBindOk, exceptPure]
    · have hvf : (validItems w worn).isEmpty = false := boolNotTrue hv
      have hvne : validItems w worn ≠ [] := ne_nil_of_isEmpty_false hvf
      obtain ⟨a, ha, _⟩ := pyChoiceE_ok idx (validItems w worn) hvne
      refine ⟨(some a, false), ?_, fun _ hv0 => absurd hv0 hvne⟩
      simp only [selectAnchorE, hef, Bool.false_eq_true, if_false, hvf]
      simp [ha, exceptBindOk, exceptPure]

theorem exceptBindErr {ε α β : Type} (e : ε) (f : α → Except ε β) :
    ((Except.error e : Except ε α) >>= f) = Except.error e := rfl

theorem genOutfitAfterWeather_spec (ctx : Ctx) (beh : Beh) (rng : Rng) (w : Weather) :
    ∃ r, genOutfitAfterWeather ctx beh rng w = Except.ok r ∧
      (r.success = true ∨ (r.success = false ∧ ctx.wardrobe_items = [])) ∧
      ((genClientLoop beh.gen).1 = none → ctx.wardrobe_items.isEmpty = false →
        r.message = "Outfit generated (Fallback Mode)" ∧ r.success = true ∧
        r.validation = none ∧ r.color_analysis = some CAField.manualFallback) ∧
      (∀ text, (genClientLoop beh.gen).1 = some text →
        (parseOutfitResponse beh.loads text).outfit ≠ [] →
        r.validation = some plannerValidationStub ∧
        r.color_analysis =
          some (CAField.analysis (analyze_outfit_colors (ctx.wardrobe_items.take 3))) ∧
        r.success = true) := by
  obtain ⟨p, hp, _⟩ := selectAnchorE_spec rng.anchorIdx ctx.wardrobe_items ctx.worn_today
  have hwe : Ctx.wardrobe_items { ctx with weather := some w } = ctx.wardrobe_items := rfl
  cases hloop : (genClientLoop beh.gen).1 with
  | none =>
    obtain ⟨r, hr, hrs, hrv, hrm⟩ :=
      generateFallback_spec { ctx with weather := some w } rng p.1
    rw [hwe] at hrs hrm
    refine ⟨r, ?_, ?_, ?_, ?_⟩
    · simp only [genOutfitAfterWeather, hp, exceptBindOk, hloop]
      exact hr
    · by_cases he : ctx.wardrobe_items.isEmpty = true
      · exact Or.inr ⟨by rw [hrs, he]; rfl, eq_nil_of_isEmpty he⟩
      · exact Or.inl (by rw [hrs, boolNotTrue he]; rfl)
    · intro _ hef
      obtain ⟨hmsg, hca, _⟩ := hrm hef
      exact ⟨hmsg, by rw [hrs, hef]; rfl, hrv, hca⟩
    · intro text htext
      exact absurd htext (by simp)
  | some text0 =>
    by_cases hpe : (parseOutfitResponse beh.loads text0).outfit.isEmpty = true
    · obtain ⟨r, hr, hrs, hrv, hrm⟩ :=
        generateFallback_spec { ctx with weather := some w } rng p.1
      rw [hwe] at hrs hrm
      refine ⟨r, ?_, ?_, ?_, ?_⟩
      · simp only [genOutfitAfterWeather, hp, exceptBindOk, hloop, hpe, if_true]
        exact hr
      · by_cases he : ctx.wardrobe_items.isEmpty = true
        · exact Or.inr ⟨by rw [hrs, he]; rfl, eq_nil_of_isEmpty he⟩
        · exact Or.inl (by rw [hrs, boolNotTrue he]; rfl)
      · intro hnone
        exact absurd hnone (by simp)
      · intro text htext hne
        injection htext with htext
        rw [← htext] at hne
        exact absurd (eq_nil_of_isEmpty hpe) hne
    · have hpef : (parseOutfitResponse beh.loads text0).outfit.isEmpty = false :=
        boolNotTrue hpe
      refine ⟨{ success := true, agent := some "PlannerAgent",
                outfit := some (OutfitVal.ai (resolveItemImages
                  (parseOutfitResponse beh.loads text0).outfit ctx.wardrobe_items)),
                reasoning := some ((parseOutfitResponse beh.loads text0).reasoning.getD ""),
                confidence_score :=
                  some ((parseOutfitResponse beh.loads text0).confidence_score.getD (8/10)),
                validation := some plannerValidationStub,
                color_analysis :=
                  some (CAField.analysis (analyze_outfit_colors (ctx.wardrobe_items.take 3))),
                weather := some w,
                occasion := some (ctx.occasion.getD "casual"),
                alternatives := some (parseOutfitResponse beh.loads text0).alternatives,
                styling_tips := some (get_styling_tips (ctx.gender.getD "unisex")
                  (ctx.occasion.getD "casual")),
                message := "Outfit generated successfully" }, ?_, Or.inl rfl, ?_, ?_⟩
      · simp only [genOutfitAfterWeather, hp, exceptBindOk, hloop, hpef, Bool.false_eq_true,
          if_false, exceptPure]
      · intro hnone
        exact absurd hnone (by simp)
      · intro text htext hne
        exact ⟨rfl, rfl, rfl⟩

theorem genOutfitBody_cases (ctx : Ctx) (beh : Beh) (rng : Rng) :
    (∃ w, genOutfitBody ctx beh rng = genOutfitAfterWeather ctx beh rng w) ∨
    (∃ e, genOutfitBody ctx beh rng = Except.error e) := by
  cases hw : ctx.weather with
  | some w =>
    left
    exact ⟨w, by simp only [genOutfitBody, hw, exceptPure, exceptBindOk]⟩
  | none =>
    cases hwc : beh.weatherCall with
    | ok w =>
      left
      exact ⟨w, by simp only [genOutfitBody, hw, hwc, exceptBindOk]⟩
    | error e =>
      right
      exact ⟨e, by simp only [genOutfitBody, hw, hwc, exceptBindErr]⟩

theorem generate_outfit_spec (ctx : Ctx) (beh : Beh) (rng : Rng) :
    ∃ r, generate_outfit ctx beh rng = Except.ok r ∧
      (r.success = true ∨ (r.success = false ∧ ctx.wardrobe_items = [])) := by
  rcases genOutfitBody_cases ctx beh rng with ⟨w, hw⟩ | ⟨e, he⟩
  · obtain ⟨r, hr, hrp, _, _⟩ := genOutfitAfterWeather_spec ctx beh rng w
    refine ⟨r, ?_, hrp⟩
    simp only [generate_outfit, hw, hr]
  · obtain ⟨r, hr, hrs, _, _⟩ := generateFallback_spec ctx rng none
    refine ⟨r, ?_, ?_⟩
    · simp only [generate_outfit, he]
      exact hr
    · by_cases hemp : ctx.wardrobe_items.isEmpty = true
      · exact Or.inr ⟨by rw [hrs, hemp]; rfl, eq_nil_of_isEmpty hemp⟩
      · exact Or.inl (by rw [hrs, boolNotTrue hemp]; rfl)

theorem genResult_eq {ctx : Ctx} {beh : Beh} {rng : Rng} {r : Res}
    (h : generate_outfit ctx beh rng = Except.ok r) : genResult ctx beh rng = r := by
  simp only [genResult, h]

theorem genClientLoop_ok {gen : Nat → Except String String} {t : String}
    (h : gen 0 = Except.ok t) : genClientLoop gen = (some t, 1) := by
  simp [genClientLoop, genLoopAux, h]

theorem genClientLoop_err {gen : Nat → Except String String} {e : String}
    (h : gen 0 = Except.error e) : genClientLoop gen = (none, 1) := by
  simp [genClientLoop, genLoopAux, h]

theorem natContains_iff {l : List Nat} {n : Nat} : l.contains n = true ↔ n ∈ l := by
  simp [List.contains]

/-! Claim theorems. -/

/-- C1: For every generation context and under any remote-service failure mode
    (the remote call raising, quota errors, unparsable output — all captured by
    quantifying over the external behaviour), generate_outfit never lets an
    exception escape to its caller (the result is always Except.ok); whenever
    the wardrobe list is non-empty the result has success = true, and a result
    with success = false occurs only for an empty wardrobe. -/
theorem c1_generate_outfit_total (ctx : Ctx) (beh : Beh) (rng : Rng) :
    (∃ r, generate_outfit ctx beh rng = Except.ok r) ∧
    (ctx.wardrobe_items ≠ [] → (genResult ctx beh rng).success = true) ∧
    ((genResult ctx beh rng).success = false → ctx.wardrobe_items = []) := by
  obtain ⟨r, hr, hrp⟩ := generate_outfit_spec ctx beh rng
  have hg := genResult_eq hr
  refine ⟨⟨r, hr⟩, ?_, ?_⟩
  · intro hne
    rw [hg]
    rcases hrp with h | ⟨_, hemp⟩
    · exact h
    · exact absurd hemp hne
  · intro hf
    rw [hg] at hf
    rcases hrp with h | ⟨_, hemp⟩
    · rw [h] at hf; exact absurd hf (by simp)
    · exact hemp

/-- C1 witness: under a quota failure, a one-shirt wardrobe yields success=true,
    and the success=false outcome happens at the empty context. -/
theorem c1_witness :
    (ctxShirt7.wardrobe_items ≠ [] ∧ (genResult ctxShirt7 behQuota rng0).success = true) ∧
    ((genResult ctxEmpty behQuota rng0).success = false ∧ ctxEmpty.wardrobe_items = []) :=
  ⟨⟨by decide, (c1_generate_outfit_total ctxShirt7 behQuota rng0).2.1 (by decide)⟩,
   ⟨by decide, (c1_generate_outfit_total ctxEmpty behQuota rng0).2.2 (by decide)⟩⟩

/-- C2 counterexample: a worn-today outfit referencing item 5 only through its
    outerwear slot. The engine does not collect ids from the outerwear (or
    accessories) category, so item 5 stays eligible, while the filter described
    by the claim (every category) removes it. -/
theorem c2_counterexample :
    validItems [itJacket5] [wornOuter5] = [itJacket5] ∧
    claimedEligible [itJacket5] [wornOuter5] = [] := by
  constructor <;> decide

/-- C2 amended: the constraint filter collects the non-zero id of every item
    referenced in the top, bottom, shoes or dress slot of any worn-today outfit
    (outerwear and accessories slots are not inspected); the eligible subset is
    exactly the inventory items whose id is not so referenced; and when the
    eligible subset is empty while the inventory is non-empty, anchor selection
    enters repeats-allowed mode and picks the anchor from the full inventory
    instead of failing. -/
theorem c2_amended :
    (∀ (wardrobe : List Item) (worn : List Worn) (i : Item),
        i ∈ validItems wardrobe worn ↔ i ∈ wardrobe ∧ ¬ WornRef worn i.id) ∧
    (∀ (idx : Nat) (wardrobe : List Item) (worn : List Worn),
        wardrobe ≠ [] → validItems wardrobe worn = [] →
        ∃ a, selectAnchorE idx wardrobe worn = Except.ok (some a, true) ∧ a ∈ wardrobe) := by
  constructor
  · intro wardrobe worn i
    simp only [validItems, List.mem_filter, decide_eq_true_eq]
    rw [natContains_iff, mem_computeWornIds]
  · intro idx wardrobe worn hne hval
    obtain ⟨p, hp, hprop⟩ := selectAnchorE_spec idx wardrobe worn
    obtain ⟨h2, a, ha1, ham⟩ := hprop hne hval
    refine ⟨a, ?_, ham⟩
    rcases p with ⟨p1, p2⟩
    simp only at ha1 h2
    rw [ha1, h2] at hp
    exact hp

/-- C2 witness: a wardrobe whose single item is referenced by a worn-today top
    slot; the eligible subset is empty and the anchor is picked with
    allow_repeats from the full wardrobe. -/
theorem c2_witness :
    ∃ a, selectAnchorE 0 [itShirt1] [wornTop1] = Except.ok (some a, true) ∧
      a ∈ [itShirt1] :=
  c2_amended.2 0 [itShirt1] [wornTop1] (by decide) (by decide)

/-- C3 counterexample: a non-empty wardrobe consisting of one pair of sneakers.
    The engine returns success=true with an outfit whose top slot is empty and
    which contains no dress-class item, contradicting the claimed top-or-dress
    coverage for every non-empty wardrobe. -/
theorem c3_counterexample :
    (genResult ctxShoesOnly behQuota rng0).success = true ∧
    (genResult ctxShoesOnly behQuota rng0).outfit =
      some (OutfitVal.fb { shoes := some itSneakers3 }) ∧
    (FOutfit.top { shoes := some itSneakers3 } = none ∧
      dressVocab.contains itSneakers3.garment_type = false) := by
  refine ⟨?_, ?_, ?_, ?_⟩ <;> decide

/-- C3 amended: whenever the wardrobe contains at least one top-bucket item,
    the fallback assembler fills the top slot; and the fallback result has
    success = false exactly when the wardrobe is empty (the only terminal
    no-outfit outcome). -/
theorem c3_amended :
    (∀ (w : List Item) (rng : Rng) (anchor : Option Item) (o : FOutfit),
        topsOf w ≠ [] → fallbackAssemble w rng anchor = Except.ok o →
        o.top.isSome = true) ∧
    (∀ (ctx : Ctx) (rng : Rng) (anchor : Option Item) (r : Res),
        generateFallbackOutfitE ctx rng anchor = Except.ok r →
        (r.success = false ↔ ctx.wardrobe_items = [])) := by
  constructor
  · intro w rng anchor o htops hok
    obtain ⟨o2, hok2, htop2⟩ := fallbackAssemble_top_spec w rng anchor
    rw [hok] at hok2
    injection hok2 with he
    rw [he]
    exact htop2 htops
  · intro ctx rng anchor r hok
    obtain ⟨r2, hok2, hrs, _, _⟩ := generateFallback_spec ctx rng anchor
    rw [hok] at hok2
    injection hok2 with he
    subst he
    constructor
    · intro hf
      rw [hrs] at hf
      have hemp : ctx.wardrobe_items.isEmpty = true := by
        revert hf; cases ctx.wardrobe_items.isEmpty <;> simp
      exact eq_nil_of_isEmpty hemp
    · intro hemp
      rw [hrs, hemp]
      rfl

/-- C3 witness: a wardrobe with one shirt; the assembled fallback outfit has a
    filled top slot. -/
theorem c3_witness :
    topsOf [itShirt1] ≠ [] ∧
    fallbackAssemble [itShirt1] rng0 none = Except.ok { top := some itShirt1 } ∧
    (FOutfit.top { top := some itShirt1 }).isSome = true :=
  ⟨by decide, by rfl,
   c3_amended.1 [itShirt1] rng0 none { top := some itShirt1 } (by decide) (by rfl)⟩

/-- C4 counterexample: a heels anchor. heels belongs to the shoes bucket used
    for partitioning, but the anchor-placement shoe list omits heels, so the
    anchor is not placed: with choice index 1 the shoe slot is filled by the
    sneakers instead of the heels anchor. -/
theorem c4_counterexample :
    shoesVocab.contains itHeels1.garment_type = true ∧
    fallbackAssemble [itHeels1, itSneakers2] rngShoePick1 (some itHeels1) =
      Except.ok { shoes := some itSneakers2 } ∧
    itSneakers2 ≠ itHeels1 :=
  ⟨by decide, by rfl, by decide⟩

/-- C4 amended: an anchor whose garment_type is in the dresses, tops or bottoms
    vocabulary, or in the shoe list without heels (shoes, sneakers, boots), is
    placed directly into the matching slot; dress-class anchors occupy the top
    slot and force the bottom slot to stay empty. Heels and outerwear-class
    anchors are not directly placed. -/
theorem c4_amended (w : List Item) (rng : Rng) (a : Item) (o : FOutfit)
    (hok : fallbackAssemble w rng (some a) = Except.ok o) :
    (dressVocab.contains a.garment_type = true → o.top = some a ∧ o.bottom = none) ∧
    (topVocab.contains a.garment_type = true → o.top = some a) ∧
    (bottomVocab.contains a.garment_type = true → o.bottom = some a) ∧
    (anchorShoesVocab.contains a.garment_type = true → o.shoes = some a) := by
  obtain ⟨o2, hok2, hd, ht, hb, hs⟩ := fallbackAssemble_anchor_spec w rng a
  rw [hok] at hok2
  injection hok2 with he
  subst he
  exact ⟨hd, ht, hb, hs⟩

/-- C4 witness: a shirt anchor is placed directly into the top slot. -/
theorem c4_witness :
    fallbackAssemble [itShirt1] rng0 (some itShirt1) = Except.ok { top := some itShirt1 } ∧
    topVocab.contains itShirt1.garment_type = true ∧
    FOutfit.top { top := some itShirt1 } = some itShirt1 :=
  ⟨by rfl, by decide,
   (c4_amended [itShirt1] rng0 itShirt1 { top := some itShirt1 } (by rfl)).2.1 (by decide)⟩

/-- C5: per-category resolution runs exact-id match first: a description whose
    id-pattern scan yields a number whose record exists in the wardrobe
    resolves to that (first such) record regardless of its color field; with no
    usable id match the color+type heuristic applies (lower-cased garment_type
    substring of the description, and some color token present or no color
    tokens at all); a description matching neither is passed through unchanged
    as unresolved text, never an error. The concrete example resolves
    Item #7 blue shirt to the id-7 record whose color is red. -/
theorem c5_resolver :
    (∀ (wardrobe : List Item) (description : String) (n : Nat) (it : Item),
        findIdNum (pyLower description).toList = some n →
        wardrobe.find? (fun i => i.id == n) = some it →
        resolveOne description wardrobe = some it) ∧
    (∀ (wardrobe : List Item) (description : String),
        (findIdNum (pyLower description).toList = none ∨
          ∃ n, findIdNum (pyLower description).toList = some n ∧
            wardrobe.find? (fun i => i.id == n) = none) →
        resolveOne description wardrobe = wardrobe.find? (heurMatch (pyLower description))) ∧
    (∀ (descLower : String) (it : Item),
        heurMatch descLower it =
          (strContainsSub descLower (pyLower it.garment_type) &&
            (decide (colorTokens it = []) ||
              (colorTokens it).any (fun tok => strContainsSub descLower tok)))) ∧
    (∀ (wardrobe : List Item) (outfit : List (String × String)) (category description : String),
        (category, description) ∈ outfit → description ≠ "" →
        resolveOne description wardrobe = none →
        (category, Resolved.txt description) ∈ resolveItemImages outfit wardrobe) ∧
    resolveOne "Item #7 blue shirt" [itShirt7] = some itShirt7 := by
  refine ⟨?_, ?_, ?_, ?_, ?_⟩
  · intro wardrobe description n it h1 h2
    simp only [resolveOne, h1, h2]
  · intro wardrobe description h
    rcases h with h | ⟨n, h1, h2⟩
    · simp only [resolveOne, h]
    · simp only [resolveOne, h1, h2]
  · intro descLower it
    cases hct : colorTokens it with
    | nil => simp [heurMatch, hct]
    | cons a as => simp [heurMatch, hct]
  · intro wardrobe outfit category description hmem hne h0
    refine List.mem_filterMap.mpr ⟨(category, description), hmem, ?_⟩
    simp only [hne, if_false, h0]
  · decide

/-- C5 witness: the id-pattern scan of the example description yields 7, the
    wardrobe holds the id-7 record with color red, and resolution returns it. -/
theorem c5_witness :
    findIdNum (pyLower "Item #7 blue shirt").toList = some 7 ∧
    [itShirt7].find? (fun i => i.id == 7) = some itShirt7 ∧
    resolveOne "Item #7 blue shirt" [itShirt7] = some itShirt7 :=
  ⟨by decide, by decide,
   c5_resolver.1 [itShirt7] "Item #7 blue shirt" 7 itShirt7 (by decide) (by decide)⟩

/-- C7: the generation client makes at most 2 attempts; on a quota-classified
    failure of the first call the loop terminates immediately with no result
    after exactly one attempt; and in that situation generate_outfit returns
    the procedural fallback result (for a non-empty wardrobe, the fallback-mode
    message with success = true). -/
theorem c7_fast_fail :
    (∀ gen : Nat → Except String String, (genClientLoop gen).2 ≤ 2) ∧
    (∀ (gen : Nat → Except String String) (e : String),
        gen 0 = Except.error e → isQuotaErr e = true → genClientLoop gen = (none, 1)) ∧
    (∀ (ctx : Ctx) (beh : Beh) (rng : Rng) (w : Weather) (e : String),
        ctx.weather = some w → ctx.wardrobe_items ≠ [] →
        beh.gen 0 = Except.error e → isQuotaErr e = true →
        (genResult ctx beh rng).success = true ∧
        (genResult ctx beh rng).message = "Outfit generated (Fallback Mode)") := by
  refine ⟨?_, ?_, ?_⟩
  · intro gen
    cases h : gen 0 with
    | ok t => simp [genClientLoop, genLoopAux, h]
    | error e => simp [genClientLoop, genLoopAux, h]
  · intro gen e h _
    exact genClientLoop_err h
  · intro ctx beh rng w e hw hne hgen _
    obtain ⟨r, hr, _, hfb, _⟩ := genOutfitAfterWeather_spec ctx beh rng w
    have hloop : (genClientLoop beh.gen).1 = none := by
      rw [genClientLoop_err hgen]
    obtain ⟨hmsg, hsucc, _, _⟩ := hfb hloop (isEmpty_false_of_ne_nil hne)
    have hbody : genOutfitBody ctx beh rng = genOutfitAfterWeather ctx beh rng w := by
      simp only [genOutfitBody, hw, exceptPure, exceptBindOk]
    have hgo : generate_outfit ctx beh rng = Except.ok r := by
      simp only [generate_outfit, hbody, hr]
    rw [genResult_eq hgo]
    exact ⟨hsucc, hmsg⟩

/-- C7 witness: the always-quota-failing service at the one-sneaker context
    makes one attempt, returns no result and triggers the fallback. -/
theorem c7_witness :
    behQuota.gen 0 = Except.error "429 Resource has been exhausted (check quota)." ∧
    isQuotaErr "429 Resource has been exhausted (check quota)." = true ∧
    (genResult ctxShoesOnly behQuota rng0).success = true ∧
    (genResult ctxShoesOnly behQuota rng0).message = "Outfit generated (Fallback Mode)" :=
  ⟨rfl, by decide,
   (c7_fast_fail.2.2 ctxShoesOnly behQuota rng0 {} _ rfl (by decide) rfl (by decide)).1,
   (c7_fast_fail.2.2 ctxShoesOnly behQuota rng0 {} _ rfl (by decide) rfl (by decide)).2⟩

theorem tagLoop_succ (att : Nat → Except String TagsCore) (path : String)
    (attempt rem : Nat) (sleeps : List Nat) :
    tagLoop att path attempt (rem + 1) sleeps =
      match att attempt with
      | Except.ok core => (some (mkSuccessTags core path), sleeps)
      | Except.error e =>
        if attempt = MAX_RETRIES - 1 then (some (fallbackTags path e), sleeps)
        else tagLoop att path (attempt + 1) rem (sleeps ++ [2 ^ (attempt + 1)]) := rfl

/-- C8: tag_garment performs up to MAX_RETRIES attempts with doubling backoff
    sleeps between failed attempts and never raises: an attempt that succeeds
    returns the parsed record with tagged_by set to the service name, and when
    every attempt fails the result is the fallback record with garment_type
    unknown, tagged_by fallback, the last error attached, satisfying the
    downstream required-field validation. -/
theorem c8_tag_garment (att : Nat → Except String TagsCore) (path : String) :
    (∃ t, (tag_garment att path).1 = some t) ∧
    (∀ core, att 0 = Except.ok core →
        tag_garment att path = (some (mkSuccessTags core path), []) ∧
        (mkSuccessTags core path).tagged_by = "gemini-vision") ∧
    (∀ e0 core, att 0 = Except.error e0 → att 1 = Except.ok core →
        tag_garment att path = (some (mkSuccessTags core path), [2])) ∧
    (∀ e0 e1 core, att 0 = Except.error e0 → att 1 = Except.error e1 →
        att 2 = Except.ok core →
        tag_garment att path = (some (mkSuccessTags core path), [2, 4])) ∧
    (∀ e0 e1 e2, att 0 = Except.error e0 → att 1 = Except.error e1 →
        att 2 = Except.error e2 →
        tag_garment att path = (some (fallbackTags path e2), [2, 4]) ∧
        (fallbackTags path e2).garment_type = "unknown" ∧
        (fallbackTags path e2).tagged_by = "fallback" ∧
        (fallbackTags path e2).error = some e2 ∧
        validate_garment_data (fallbackTags path e2) =
          { valid := true, missing_fields := [],
            message := "All required fields present" }) := by
  have step : ∀ (attempt rem : Nat) (sleeps : List Nat),
      tagLoop att path attempt (rem + 1) sleeps =
        match att attempt with
        | Except.ok core => (some (mkSuccessTags core path), sleeps)
        | Except.error e =>
          if attempt = MAX_RETRIES - 1 then (some (fallbackTags path e), sleeps)
          else tagLoop att path (attempt + 1) rem (sleeps ++ [2 ^ (attempt + 1)]) :=
    fun attempt rem sleeps => tagLoop_succ att path attempt rem sleeps
  refine ⟨?_, ?_, ?_, ?_, ?_⟩
  · cases h0 : att 0 with
    | ok core =>
      refine ⟨mkSuccessTags core path, ?_⟩
      show (tagLoop att path 0 (2 + 1) []).1 = _
      rw [step, h0]
    | error e0 =>
      cases h1 : att 1 with
      | ok core =>
        refine ⟨mkSuccessTags core path, ?_⟩
        show (tagLoop att path 0 (2 + 1) []).1 = _
        rw [step, h0]
        simp only [MAX_RETRIES]
        norm_num
        rw [step, h1]
      | error e1 =>
        cases h2 : att 2 with
        | ok core =>
          refine ⟨mkSuccessTags core path, ?_⟩
          show (tagLoop att path 0 (2 + 1) []).1 = _
          rw [step, h0]
          simp only [MAX_RETRIES]
          norm_num
          rw [step, h1]
          simp only [MAX_RETRIES]
          norm_num
          rw [step, h2]
        | error e2 =>
          refine ⟨fallbackTags path e2, ?_⟩
          show (tagLoop att path 0 (2 + 1) []).1 = _
          rw [step, h0]
          simp only [MAX_RETRIES]
          norm_num
          rw [step, h1]
          simp only [MAX_RETRIES]
          norm_num
          rw [step, h2]
          simp [MAX_RETRIES]
  · intro core h0
    constructor
    · show tagLoop att path 0 (2 + 1) [] = _
      rw [step, h0]
    · rfl
  · intro e0 core h0 h1
    show tagLoop att path 0 (2 + 1) [] = _
    rw [step, h0]
    simp only [MAX_RETRIES]
    norm_num
    rw [step, h1]
  · intro e0 e1 core h0 h1 h2
    show tagLoop att path 0 (2 + 1) [] = _
    rw [step, h0]
    simp only [MAX_RETRIES]
    norm_num
    rw [step, h1]
    simp only [MAX_RETRIES]
    norm_num
    rw [step, h2]
  · intro e0 e1 e2 h0 h1 h2
    refine ⟨?_, rfl, rfl, rfl, rfl⟩
    show tagLoop att path 0 (2 + 1) [] = _
    rw [step, h0]
    simp only [MAX_RETRIES]
    norm_num
    rw [step, h1]
    simp only [MAX_RETRIES]
    norm_num
    rw [step, h2]
    simp [MAX_RETRIES]

/-- C8 witness: an always-failing tagging service yields the fallback record
    after sleeps of 2 and 4 seconds, and the record passes downstream
    validation. -/
theorem c8_witness :
    ((fun _ => Except.error "boom" : Nat → Except String TagsCore) 0 =
      Except.error "boom") ∧
    tag_garment (fun _ => Except.error "boom") "img.jpg" =
      (some (fallbackTags "img.jpg" "boom"), [2, 4]) ∧
    validate_garment_data (fallbackTags "img.jpg" "boom") =
      { valid := true, missing_fields := [], message := "All required fields present" } :=
  ⟨rfl,
   ((c8_tag_garment (fun _ => Except.error "boom") "img.jpg").2.2.2.2
     "boom" "boom" "boom" rfl rfl rfl).1,
   ((c8_tag_garment (fun _ => Except.error "boom") "img.jpg").2.2.2.2
     "boom" "boom" "boom" rfl rfl rfl).2.2.2.2⟩

/-- C10: when there are at least two colors, none of them neutral, and the
    primary (first, lower-cased) color is not a key of the complementary
    table, validate_combination accepts permissively with valid = true and
    score 0.7, never rejecting. -/
theorem c10_unknown_primary_permissive :
    ∀ colors : List String, 2 ≤ colors.length →
      ((colors.map pyLower).any (fun c => neutralColors.contains c)) = false →
      lookupComplementary ((colors.map pyLower).headD "") = none →
      validate_combination colors =
        { valid := true, score := 7/10,
          reasoning := "Color combination not in database - proceed with caution" } := by
  intro colors hlen hneu hlook
  have hlt : ¬ colors.length < 2 := by omega
  simp only [validate_combination, if_neg hlt, hneu, Bool.false_eq_true, if_false, hlook]

/-- C10 witness: magenta and teal — neither neutral nor a table key — are
    accepted with score 0.7. -/
theorem c10_witness :
    2 ≤ (["magenta", "teal"] : List String).length ∧
    ((["magenta", "teal"].map pyLower).any (fun c => neutralColors.contains c)) = false ∧
    lookupComplementary ((["magenta", "teal"].map pyLower).headD "") = none ∧
    validate_combination ["magenta", "teal"] =
      { valid := true, score := 7/10,
        reasoning := "Color combination not in database - proceed with caution" } :=
  ⟨by decide, by decide, by decide,
   c10_unknown_primary_permissive ["magenta", "teal"] (by decide) (by decide) (by decide)⟩

theorem validate_combination_branch (colors complements : List String)
    (hlen : 2 ≤ colors.length)
    (hneu : (colors.map pyLower).any (fun c => neutralColors.contains c) = false)
    (hlook : lookupComplementary ((colors.map pyLower).headD "") = some complements)
    (hany : complements.contains "any" = false) :
    (validate_combination colors).score =
      (((colors.map pyLower).tail.filter
        (fun c => complements.any (fun comp => strContainsSub c comp))).length : ℚ) /
        ((colors.map pyLower).tail.length : ℚ) ∧
    ((validate_combination colors).valid = true ↔
      (1 : ℚ)/2 ≤ (validate_combination colors).score) := by
  have hlt : ¬ colors.length < 2 := by omega
  have htl : ¬ (colors.map pyLower).tail.length = 0 := by
    rw [List.length_tail, List.length_map]
    omega
  simp only [validate_combination, if_neg hlt, hneu, Bool.false_eq_true, if_false, hlook,
    hany, if_neg htl]
  constructor
  · split <;> rfl
  · split
    next hge => exact ⟨fun _ => hge, fun _ => rfl⟩
    next hge => exact ⟨fun h => absurd h Bool.false_ne_true, fun h => absurd h hge⟩

theorem validateCombinationClaimed_branch (colors complements : List String)
    (hlen : 2 ≤ colors.length)
    (hneu : (colors.map pyLower).any (fun c => neutralColors.contains c) = false)
    (hlook : lookupComplementary ((colors.map pyLower).headD "") = some complements)
    (hany : complements.contains "any" = false) :
    (validateCombinationClaimed colors).score =
      (((colors.map pyLower).tail.filter
        (fun c => complements.any (fun comp => strContainsSub comp c))).length : ℚ) /
        ((colors.map pyLower).tail.length : ℚ) ∧
    ((validateCombinationClaimed colors).valid = true ↔
      (1 : ℚ)/2 ≤ (validateCombinationClaimed colors).score) := by
  have hlt : ¬ colors.length < 2 := by omega
  have htl : ¬ (colors.map pyLower).tail.length = 0 := by
    rw [List.length_tail, List.length_map]
    omega
  simp only [validateCombinationClaimed, if_neg hlt, hneu, Bool.false_eq_true, if_false,
    hlook, hany, if_neg htl]
  constructor
  · split <;> rfl
  · split
    next hge => exact ⟨fun _ => hge, fun _ => rfl⟩
    next hge => exact ⟨fun h => absurd h Bool.false_ne_true, fun h => absurd h hge⟩

/-- C6 counterexample: with colors blue and light orange (no neutral, primary
    blue in the table), the source counts a secondary color as matching when a
    listed complement is a substring of it (orange in light orange), so the
    pair is accepted with full score; the claimed direction — the secondary
    color appearing as a substring of a listed complement — rejects it. -/
theorem c6_counterexample :
    (validate_combination ["blue", "light orange"]).valid = true ∧
    (validateCombinationClaimed ["blue", "light orange"]).valid = false := by
  have h1 := validate_combination_branch ["blue", "light orange"]
    ["orange", "yellow", "white", "beige"] (by decide) (by decide) (by decide) (by decide)
  have h2 := validateCombinationClaimed_branch ["blue", "light orange"]
    ["orange", "yellow", "white", "beige"] (by decide) (by decide) (by decide) (by decide)
  constructor
  · apply h1.2.mpr
    rw [h1.1]
    rw [show ((["blue", "light orange"].map pyLower).tail.filter
      (fun c => (["orange", "yellow", "white", "beige"]).any
        (fun comp => strContainsSub c comp))).length = 1 from by decide]
    rw [show ((["blue", "light orange"].map pyLower).tail.length) = 1 from by decide]
    norm_num
  · have hnot : ¬ ((validateCombinationClaimed ["blue", "light orange"]).valid = true) := by
      rw [h2.2, h2.1]
      rw [show ((["blue", "light orange"].map pyLower).tail.filter
        (fun c => (["orange", "yellow", "white", "beige"]).any
          (fun comp => strContainsSub comp c))).length = 0 from by decide]
      rw [show ((["blue", "light orange"].map pyLower).tail.length) = 1 from by decide]
      norm_num
    revert hnot
    cases (validateCombinationClaimed ["blue", "light orange"]).valid <;> simp

/-- C6 amended: color harmony validation returns valid=true with score 1.0 for
    fewer than 2 colors, and valid=true with score 0.95 when any color is in
    the fixed neutral set; otherwise it looks the primary color up in the
    complementary table and requires at least half of the secondary colors to
    contain some listed complement as a substring (complement in color, not
    color in complement), returning the matching fraction as a continuous
    score; blue+white is accepted with score at least 0.9 and red+orange is
    rejected with score below one half. -/
theorem c6_amended :
    (∀ colors : List String, colors.length < 2 →
        validate_combination colors =
          { valid := true, score := 1,
            reasoning := "Single or no colors - automatically valid" }) ∧
    (∀ colors : List String, 2 ≤ colors.length →
        ((colors.map pyLower).any (fun c => neutralColors.contains c)) = true →
        validate_combination colors =
          { valid := true, score := 95/100,
            reasoning := "Contains neutral colors which pair well with most colors" }) ∧
    (∀ colors complements : List String, 2 ≤ colors.length →
        ((colors.map pyLower).any (fun c => neutralColors.contains c)) = false →
        lookupComplementary ((colors.map pyLower).headD "") = some complements →
        complements.contains "any" = false →
        (validate_combination colors).score =
          (((colors.map pyLower).tail.filter
            (fun c => complements.any (fun comp => strContainsSub c comp))).length : ℚ) /
            ((colors.map pyLower).tail.length : ℚ) ∧
        ((validate_combination colors).valid = true ↔
          (1 : ℚ)/2 ≤ (validate_combination colors).score)) ∧
    ((validate_combination ["blue", "white"]).valid = true ∧
      (9 : ℚ)/10 ≤ (validate_combination ["blue", "white"]).score) ∧
    ((validate_combination ["red", "orange"]).valid = false ∧
      (validate_combination ["red", "orange"]).score < (1 : ℚ)/2) := by
  refine ⟨?_, ?_, ?_, ?_, ?_⟩
  · intro colors h
    simp only [validate_combination, if_pos h]
  · intro colors hlen hneu
    have hlt : ¬ colors.length < 2 := by omega
    simp only [validate_combination, if_neg hlt, hneu, if_true]
  · exact fun colors complements h1 h2 h3 h4 =>
      validate_combination_branch colors complements h1 h2 h3 h4
  · have e : validate_combination ["blue", "white"] =
        { valid := true, score := 95/100,
          reasoning := "Contains neutral colors which pair well with most colors" } := rfl
    rw [e]
    exact ⟨rfl, by norm_num⟩
  · have h := validate_combination_branch ["red", "orange"]
      ["green", "white", "black", "navy"] (by decide) (by decide) (by decide) (by decide)
    have hs : (validate_combination ["red", "orange"]).score = 0 := by
      rw [h.1]
      rw [show ((["red", "orange"].map pyLower).tail.filter
        (fun c => (["green", "white", "black", "navy"]).any
          (fun comp => strContainsSub c comp))).length = 0 from by decide]
      norm_num
    constructor
    · have hnot : ¬ ((validate_combination ["red", "orange"]).valid = true) := by
        rw [h.2, hs]
        norm_num
      revert hnot
      cases (validate_combination ["red", "orange"]).valid <;> simp
    · rw [hs]
      norm_num

/-- C6 witness: the third clause instantiated at red+orange with the table row
    of red. -/
theorem c6_witness :
    2 ≤ (["red", "orange"] : List String).length ∧
    ((validate_combination ["red", "orange"]).score =
      (((["red", "orange"].map pyLower).tail.filter
        (fun c => (["green", "white", "black", "navy"]).any
          (fun comp => strContainsSub c comp))).length : ℚ) /
        ((["red", "orange"].map pyLower).tail.length : ℚ) ∧
      ((validate_combination ["red", "orange"]).valid = true ↔
        (1 : ℚ)/2 ≤ (validate_combination ["red", "orange"]).score)) :=
  ⟨by decide, c6_amended.2.2.1 ["red", "orange"] ["green", "white", "black", "navy"]
    (by decide) (by decide) (by decide) (by decide)⟩

/-- C9 counterexample: after an outfit is produced on the fallback path the
    returned result carries no validation at all, and on the AI path the
    attached validation is the constant stub (valid, 0.8, no issues) even for
    an outfit missing bottom and shoes, for which the structural validator of
    GenderStyleRules yields invalid with score 0.3. -/
theorem c9_counterexample :
    (genResult ctxShoesOnly behQuota rng0).success = true ∧
    (genResult ctxShoesOnly behQuota rng0).validation = none ∧
    (genResult ctxShirt7 behAI rng0).validation = some plannerValidationStub ∧
    gsValidateOutfit { top := some itShirt7 } "unisex" =
      { valid := false, score := 3/10,
        issues := ["Missing required items: bottom, shoes"],
        missing := some ["bottom", "shoes"] } := by
  exact ⟨by decide, rfl, rfl, rfl⟩

/-- C9 amended: on the fallback path a produced outfit (success = true) carries
    no validation and a fixed placeholder color analysis; on the AI path the
    result carries the constant stub validation (valid, score 0.8, no issues)
    and a color analysis computed over the first three wardrobe items rather
    than the selected outfit items; the gender-profile structural validation of
    GenderStyleRules.validate_outfit is never invoked. -/
theorem c9_amended :
    (∀ (ctx : Ctx) (rng : Rng) (anchor : Option Item) (r : Res),
        generateFallbackOutfitE ctx rng anchor = Except.ok r → r.success = true →
        r.validation = none ∧ r.color_analysis = some CAField.manualFallback) ∧
    (∀ (ctx : Ctx) (beh : Beh) (rng : Rng) (w : Weather) (txt : String),
        ctx.weather = some w → beh.gen 0 = Except.ok txt →
        (parseOutfitResponse beh.loads txt).outfit ≠ [] →
        (genResult ctx beh rng).validation = some plannerValidationStub ∧
        (genResult ctx beh rng).color_analysis =
          some (CAField.analysis (analyze_outfit_colors (ctx.wardrobe_items.take 3)))) := by
  constructor
  · intro ctx rng anchor r hok hs
    obtain ⟨r2, hok2, hrs, hrv, hrm⟩ := generateFallback_spec ctx rng anchor
    rw [hok] at hok2
    injection hok2 with he
    subst he
    have hef : ctx.wardrobe_items.isEmpty = false := by
      rw [hrs] at hs
      revert hs
      cases ctx.wardrobe_items.isEmpty <;> simp
    obtain ⟨_, hca, _⟩ := hrm hef
    exact ⟨hrv, hca⟩
  · intro ctx beh rng w txt hw hgen hne
    obtain ⟨r, hr, _, _, hai⟩ := genOutfitAfterWeather_spec ctx beh rng w
    have hloop : (genClientLoop beh.gen).1 = some txt := by
      rw [genClientLoop_ok hgen]
    obtain ⟨hv, hca, _⟩ := hai txt hloop hne
    have hbody : genOutfitBody ctx beh rng = genOutfitAfterWeather ctx beh rng w := by
      simp only [genOutfitBody, hw, exceptPure, exceptBindOk]
    have hgo : generate_outfit ctx beh rng = Except.ok r := by
      simp only [generate_outfit, hbody, hr]
    rw [genResult_eq hgo]
    exact ⟨hv, hca⟩

/-- C9 witness: the AI path at a one-shirt context attaches the stub validation
    and the wardrobe-prefix color analysis. -/
theorem c9_witness :
    (parseOutfitResponse behAI.loads "\x7b\x7d").outfit ≠ [] ∧
    (genResult ctxShirt7 behAI rng0).validation = some plannerValidationStub ∧
    (genResult ctxShirt7 behAI rng0).color_analysis =
      some (CAField.analysis (analyze_outfit_colors (ctxShirt7.wardrobe_items.take 3))) :=
  ⟨by decide,
   (c9_amended.2 ctxShirt7 behAI rng0 {} "\x7b\x7d" rfl rfl (by decide)).1,
   (c9_amended.2 ctxShirt7 behAI rng0 {} "\x7b\x7d" rfl rfl (by decide)).2⟩
